import Mathlib

/-!
# EMonCMS low power stack: packet codec, attribute registry and dispatcher

A shallow embedding of `EMonCMS.cpp` / `EMonCMS.h`.

Conventions of the embedding

* Machine integers are natural numbers; every `uint16_t` accumulation of the
  source is reduced modulo `65536` at the place where the source truncates.
* A byte buffer (`uint8_t *`) is a `List Nat`; `buffer[i] = v` is `List.set`
  and `buffer[i]` is `List.getD _ i 0`.  An access outside the list is outside
  the object in the source.
* A `void *item` of a `DataItem` is the list of bytes readable at that address.
  An item that the decode loop produces is a view into the inbound buffer: the
  suffix of the buffer that starts at the item's first value byte.
* A pointer and its element count (`DataItem *items, uint16_t length`,
  `attrValues, attrValuesLength`) are one list.
* Multi-byte scalars are little endian, as on the AVR and x86 targets of the
  library.  `HeaderInfo` overlays the first four bytes of a packet:
  `dataSize` at bytes 0 and 1, `status` at byte 2, `dataCount` at byte 3.
* Calls into the host (outbound send, attribute readers, the two optional
  notifications) are recorded, in call order, in the `trace` of the driver.
  A reader is a function of the identifier it is called with, and the value the
  send returns is a function of the packet it is given.
* `LOG` statements are left out.
-/

namespace EMonCMSLowPowerStack

/-! ## Constants and types of `EMonCMS.h` -/

abbrev REGISTERREQUESTTIMEOUT : Nat := 5000

/-- Tags of `enum dataTypes`. -/
abbrev STRING : Nat := 1
abbrev CHAR : Nat := 2
abbrev UCHAR : Nat := 3
abbrev SHORT : Nat := 4
abbrev USHORT : Nat := 5
abbrev INT : Nat := 6
abbrev UINT : Nat := 7
abbrev LONG : Nat := 8
abbrev ULONG : Nat := 9
abbrev FLOAT : Nat := 10

/-- Codes of `enum Status`. -/
abbrev SUCCESS : Nat := 0x00
abbrev FAILURE : Nat := 0x01
abbrev UNSUPPORTED_ATTRIBUTE : Nat := 0x86
abbrev INVALID_VALUE : Nat := 0x87

/-- The enumerators of `enum RequestType`. -/
inductive RequestType where
  | NODE_REGISTER
  | ATTR_REGISTER
  | ATTR_POST
  | ATTR_POST_RESPONSE
  | ATTR_FAILURE
deriving DecidableEq, Repr

/-- Numeric value of a `RequestType` enumerator: `'R'`, `'A'`, `'P'`, `'p'`, and
`ATTR_FAILURE`, which takes the value after `'p'`. -/
def RequestType.code : RequestType → Nat
  | .NODE_REGISTER => 82
  | .ATTR_REGISTER => 65
  | .ATTR_POST => 80
  | .ATTR_POST_RESPONSE => 112
  | .ATTR_FAILURE => 113

/-- The struct `HeaderInfo`. -/
structure HeaderInfo where
  dataSize : Nat
  status : Nat
  dataCount : Nat
deriving DecidableEq, Repr

/-- The struct `DataItem`: a type tag and the bytes at the address `item`. -/
structure DataItem where
  type : Nat
  item : List Nat
deriving DecidableEq, Repr

instance : Inhabited DataItem := ⟨⟨0, []⟩⟩

/-- The struct `AttributeIdentifier`. -/
structure AttributeIdentifier where
  groupID : Nat
  attributeID : Nat
  attributeNumber : Nat
deriving DecidableEq, Repr

/-- The struct `AttributeValue`.  The reader fills a `DataItem` and reports
success (`some item`) or failure (`none`). -/
structure AttributeValue where
  attr : AttributeIdentifier
  reader : AttributeIdentifier → Option DataItem
  registered : Bool

/-- One call into the host. -/
inductive Effect where
  | networkSender (type : Nat) (buffer : List Nat) (length : Nat)
  | reader (index : Nat) (attr : AttributeIdentifier)
  | nodeRegistered (emonNodeID : Nat)
  | attrRegistered (attr : AttributeIdentifier)
deriving DecidableEq, Repr

/-- The data members of `class EMonCMS`.  `attrValues` with `attrValuesLength`
is one list.  The two optional notifications are recorded as present or `NULL`;
their invocations, like those of `networkSender` and of the readers, go to
`trace`.  `networkSender` gives the value the host's send returns for a packet
type, buffer and length. -/
structure EMonCMS where
  nodeID : Nat
  attrValues : List AttributeValue
  lastRegisterRequest : Nat
  networkSender : Nat → List Nat → Nat → Nat
  attrRegistered : Bool
  nodeRegistered : Bool
  trace : List Effect

namespace EMonCMS

open RequestType

/-! ## Bytes -/

/-- The two bytes of a `uint16_t` object, low byte first. -/
def u16Bytes (v : Nat) : List Nat := [v % 256, v / 256 % 256]

/-- Value of `*(uint16_t *)p` for the bytes at `p`. -/
def readU16 (p : List Nat) : Nat := p.getD 0 0 + 256 * p.getD 1 0

/-- Store of a `uint16_t` at byte offset `off` of a buffer. -/
def writeU16 (buffer : List Nat) (off v : Nat) : List Nat :=
  (buffer.set off (v % 256)).set (off + 1) (v / 256 % 256)

/-- The struct `HeaderInfo` that overlays the first four bytes of a buffer. -/
def headerOf (buffer : List Nat) : HeaderInfo :=
  { dataSize := readU16 buffer, status := buffer.getD 2 0, dataCount := buffer.getD 3 0 }

/-! ## Type catalog and codec -/

/-- Embedding of `EMonCMS::getTypeSize`. -/
def getTypeSize (type : Nat) : Nat :=
  if type = CHAR ∨ type = UCHAR then 1
  else if type = SHORT ∨ type = USHORT then 2
  else if type = INT ∨ type = UINT then 4
  else if type = FLOAT then 4
  else if type = LONG ∨ type = ULONG then 8
  else 0

/-- Embedding of `EMonCMS::attrSize`: the header size, then `getTypeSize + 1`
per item, then the NodeID item for the three node scoped request types; `size`
is a `uint16_t`. -/
def attrSize (type : RequestType) (item : List DataItem) : Nat :=
  let size := item.foldl (fun size it => (size + (getTypeSize it.type + 1)) % 65536) 4
  match type with
  | .ATTR_REGISTER | .ATTR_FAILURE | .ATTR_POST => (size + (2 + 1)) % 65536
  | .NODE_REGISTER => size
  | .ATTR_POST_RESPONSE => size

/-- Embedding of `EMonCMS::dataItemToBuffer`, writing at `&buffer[off]`: the
tag, then `getTypeSize` bytes copied from the item.  Returns the byte count and
the buffer. -/
def dataItemToBuffer (item : DataItem) (buffer : List Nat) (off : Nat) : Nat × List Nat :=
  let buffer := buffer.set off item.type
  let buffer := (List.range (getTypeSize item.type)).foldl
    (fun b i => b.set (off + (1 + i)) (item.item.getD i 0)) buffer
  (1 + getTypeSize item.type, buffer)

/-- The final loop of `attrBuilder`: every caller item is written at
`itemIndex`, which advances as a `uint16_t`. -/
def writeItems : List DataItem → Nat → List Nat → Nat × List Nat
  | [], itemIndex, buffer => (itemIndex, buffer)
  | it :: rest, itemIndex, buffer =>
    let r := dataItemToBuffer it buffer itemIndex
    writeItems rest ((itemIndex + r.1) % 65536) r.2

/-- The value `header->dataSize` holds after the first loop of `attrBuilder`
(it is set to 0 and then grows by `sizeof(type) + getTypeSize` per item). -/
def itemsDataSize (items : List DataItem) : Nat :=
  items.foldl (fun dataSize it => (dataSize + (1 + getTypeSize it.type)) % 65536) 0

/-- Embedding of `EMonCMS::attrBuilder` for a driver whose NodeID is `nodeID`.
Returns the `uint16_t` result and the buffer as the call leaves it.  The header
fields are stored in place, in the order of the source: `dataSize` is already
in the buffer when the arity and NodeID checks run. -/
def attrBuilder (nodeID : Nat) (type : RequestType) (items : List DataItem)
    (buffer : List Nat) : Nat × List Nat :=
  let buffer := writeU16 buffer 0 (itemsDataSize items)
  let itemIndex := 4
  match type with
  | .ATTR_REGISTER | .ATTR_POST =>
    if items.length ≠ 4 then (0, buffer)
    else if nodeID = 0 then (0, buffer)
    else
      let buffer := buffer.set 3 5
      let buffer := writeU16 buffer 0 ((itemsDataSize items + (2 + 1)) % 65536)
      let buffer := buffer.set 2 SUCCESS
      let r := dataItemToBuffer ⟨USHORT, u16Bytes nodeID⟩ buffer itemIndex
      writeItems items ((itemIndex + r.1) % 65536) r.2
  | .ATTR_FAILURE =>
    if items.length ≠ 3 then (0, buffer)
    else if nodeID = 0 then (0, buffer)
    else
      let buffer := buffer.set 3 4
      let buffer := writeU16 buffer 0 ((itemsDataSize items + (2 + 1)) % 65536)
      let buffer := buffer.set 2 FAILURE
      let r := dataItemToBuffer ⟨USHORT, u16Bytes nodeID⟩ buffer itemIndex
      writeItems items ((itemIndex + r.1) % 65536) r.2
  | .NODE_REGISTER =>
    let buffer := buffer.set 2 SUCCESS
    let buffer := buffer.set 3 0
    let buffer := writeU16 buffer 0 0
    writeItems items itemIndex buffer
  | .ATTR_POST_RESPONSE => (0, buffer)

/-- The decode loop of `parseEMonCMSPacket`: `n` iterations are left, `i` is the
loop counter and `index` the read position.  Slot `i` of the caller's array
receives the tag at `index` and the address of the byte after it. -/
def decodeLoop (buffer : List Nat) : Nat → Nat → Nat → List DataItem → List DataItem
  | 0, _, _, items => items
  | n + 1, i, index, items =>
    let type := buffer.getD index 0
    decodeLoop buffer n (i + 1) (index + 1 + getTypeSize type)
      (items.set i ⟨type, buffer.drop (index + 1)⟩)

/-- Lines 204 to 215 of `parseEMonCMSPacket`: the caller's `items` array after
the decode loop. -/
def decodeItems (header : HeaderInfo) (buffer : List Nat) (items : List DataItem) :
    List DataItem :=
  if header.dataCount > 0 then decodeLoop buffer header.dataCount 0 0 items else items

/-! ## Attribute registry -/

/-- Embedding of `EMonCMS::compareAttribute`; `none` is a `NULL` pointer. -/
def compareAttribute (a b : Option AttributeIdentifier) : Nat :=
  match a, b with
  | some a, some b =>
    if a.groupID = b.groupID ∧ a.attributeID = b.attributeID ∧
        a.attributeNumber = b.attributeNumber then 0 else 1
  | _, _ => 1

/-- The scan of `getAttribute` from entry `i` on; the result is the index of the
entry the returned pointer addresses. -/
def getAttributeLoop (attr : Option AttributeIdentifier) : List AttributeValue → Nat → Option Nat
  | [], _ => none
  | v :: rest, i =>
    if compareAttribute (some v.attr) attr = 0 then some i
    else getAttributeLoop attr rest (i + 1)

/-- Embedding of `EMonCMS::getAttribute`. -/
def getAttribute (s : EMonCMS) (attr : Option AttributeIdentifier) : Option Nat :=
  getAttributeLoop attr s.attrValues 0

/-- Embedding of `EMonCMS::isEMonCMSPacket`: the cases 'r', 'a', 'p' and 'P'. -/
def isEMonCMSPacket (type : Nat) : Bool :=
  type = 114 || type = 97 || type = 112 || type = 80

/-- Embedding of `EMonCMS::attrIdentAsDataItems`: the three slots it fills. -/
def attrIdentAsDataItems (ident : AttributeIdentifier) : List DataItem :=
  [⟨USHORT, u16Bytes ident.groupID⟩, ⟨USHORT, u16Bytes ident.attributeID⟩,
   ⟨USHORT, u16Bytes ident.attributeNumber⟩]

/-! ## Sending -/

/-- A stack array `uint8_t buffer[size]` before it is written.  Its contents
are indeterminate in the source; a successful build overwrites every byte
(`attrBuilder_buffer_independent`), so zeros stand for them. -/
def stackBuffer (size : Nat) : List Nat := List.replicate size 0

/-- Embedding of `EMonCMS::attrSender`. -/
def attrSender (s : EMonCMS) (type : RequestType) (items : List DataItem) : Nat × EMonCMS :=
  let size := attrSize type items
  if size = 0 then (size, s)
  else
    let r := attrBuilder s.nodeID type items (stackBuffer size)
    if r.1 ≠ size then (0, s)
    else
      (s.networkSender type.code r.2 size,
        { s with trace := s.trace ++ [Effect.networkSender type.code r.2 size] })

/-- Embedding of `EMonCMS::postAttribute`. -/
def postAttribute (s : EMonCMS) (ident : AttributeIdentifier) : Nat × EMonCMS :=
  match s.getAttribute (some ident) with
  | none => (0, s)
  | some k =>
    let s1 := { s with trace := s.trace ++ [Effect.reader k ident] }
    match (s.attrValues.get? k).bind (fun attrVal => attrVal.reader ident) with
    | none => (0, s1)
    | some item => attrSender s1 .ATTR_POST (attrIdentAsDataItems ident ++ [item])

/-- The identifier that `requestAttribute` and the 'a' case of
`parseEMonCMSPacket` read from `items[1]`, `items[2]` and `items[3]`. -/
def identOfItems (items : List DataItem) : AttributeIdentifier :=
  { groupID := readU16 (items.getD 1 default).item,
    attributeID := readU16 (items.getD 2 default).item,
    attributeNumber := readU16 (items.getD 3 default).item }

/-- The `status != SUCCESS` branch of `requestAttribute`: an `ATTR_FAILURE`
packet is built from `&items[1]`, three items, the status is stored in its
header and it is sent with type 'p'. -/
def requestAttributeFailure (s : EMonCMS) (status : Nat) (items : List DataItem) :
    Bool × EMonCMS :=
  let failureItems := [items.getD 1 default, items.getD 2 default, items.getD 3 default]
  let size := attrSize .ATTR_FAILURE failureItems
  let r := attrBuilder s.nodeID .ATTR_FAILURE failureItems (stackBuffer size)
  if r.1 ≠ size then (false, s)
  else
    let failureBuffer := r.2.set 2 status
    (true, { s with trace := s.trace ++ [Effect.networkSender 112 failureBuffer size] })

/-- The `status == SUCCESS` branch of `requestAttribute`: `memcpy` moves
`items[0]`, `items[1]`, `items[2]` to the response items, the value read is the
fourth, and the `ATTR_POST` packet is sent with type 'p'. -/
def requestAttributeSuccess (s : EMonCMS) (item : DataItem) (items : List DataItem) :
    Bool × EMonCMS :=
  let responseItems := [items.getD 0 default, items.getD 1 default, items.getD 2 default, item]
  let size := attrSize .ATTR_POST responseItems
  let r := attrBuilder s.nodeID .ATTR_POST responseItems (stackBuffer size)
  if r.1 ≠ size then (false, s)
  else (true, { s with trace := s.trace ++ [Effect.networkSender 112 r.2 size] })

/-- Embedding of `EMonCMS::requestAttribute`. -/
def requestAttribute (s : EMonCMS) (items : List DataItem) : Bool × EMonCMS :=
  let ident := identOfItems items
  match s.getAttribute (some ident) with
  | none => requestAttributeFailure s UNSUPPORTED_ATTRIBUTE items
  | some k =>
    let s1 := { s with trace := s.trace ++ [Effect.reader k ident] }
    match (s.attrValues.get? k).bind (fun attrVal => attrVal.reader ident) with
    | none => requestAttributeFailure s1 INVALID_VALUE items
    | some item => requestAttributeSuccess s1 item items

/-! ## Packet dispatcher -/

/-- The `registered = 1` store through the pointer `getAttribute` returned. -/
def markRegistered (attrValues : List AttributeValue) (k : Nat) : List AttributeValue :=
  match attrValues.get? k with
  | none => attrValues
  | some attrVal => attrValues.set k { attrVal with registered := true }

/-- Embedding of `EMonCMS::parseEMonCMSPacket`.  `items` is the caller's array. -/
def parseEMonCMSPacket (s : EMonCMS) (header : HeaderInfo) (type : Nat) (buffer : List Nat)
    (items : List DataItem) : Bool × EMonCMS :=
  if !isEMonCMSPacket type then (false, s)
  else
    let items := decodeItems header buffer items
    if type = 114 then
      let s1 := { s with nodeID := readU16 (items.getD 0 default).item }
      if s1.nodeRegistered then
        (true, { s1 with trace := s1.trace ++ [Effect.nodeRegistered s1.nodeID] })
      else (true, s1)
    else if type = 80 then
      let r := requestAttribute s items
      if !r.1 then (false, r.2) else (true, r.2)
    else if type = 97 then
      let ident := identOfItems items
      match s.getAttribute (some ident) with
      | some k =>
        let s1 := { s with attrValues := markRegistered s.attrValues k }
        if s1.attrRegistered then
          (true, { s1 with trace := s1.trace ++ [Effect.attrRegistered ident] })
        else (true, s1)
      | none => (true, s)
    else if type = 112 then (true, s)
    else (false, s)

/-! ## Registration driver -/

/-- One iteration of the attribute pass of `registerNode`, for entry `i`. -/
def registerAttribute (s : EMonCMS) (i : Nat) : EMonCMS :=
  match s.attrValues.get? i with
  | none => s
  | some attrVal =>
    if !attrVal.registered then
      let s1 := { s with trace := s.trace ++ [Effect.reader i attrVal.attr] }
      match attrVal.reader attrVal.attr with
      | none => s1
      | some item =>
        (attrSender s1 .ATTR_REGISTER (attrIdentAsDataItems attrVal.attr ++ [item])).2
    else s

/-- Embedding of `EMonCMS::registerNode` on the Arduino target, where `millis()`
and the subtraction are 32 bit unsigned.  `millis0` is the clock reading of the
timeout test and `millis1` the later reading stored in `lastRegisterRequest`. -/
def registerNode (s : EMonCMS) (millis0 millis1 : Nat) : EMonCMS :=
  if (millis0 % 4294967296 + 4294967296 - s.lastRegisterRequest % 4294967296) % 4294967296
      > REGISTERREQUESTTIMEOUT then
    if s.nodeID = 0 then
      let s1 := (attrSender s .NODE_REGISTER []).2
      { s1 with lastRegisterRequest := millis1 % 4294967296 }
    else
      let s1 := (List.range s.attrValues.length).foldl registerAttribute s
      { s1 with lastRegisterRequest := millis1 % 4294967296 }
  else s

/-! ## Operations of the driver -/

/-- A call of one of the public operations that can touch the driver. -/
inductive Operation where
  | parseEMonCMSPacket (header : HeaderInfo) (type : Nat) (buffer : List Nat)
      (items : List DataItem)
  | registerNode (millis0 millis1 : Nat)
  | postAttribute (ident : AttributeIdentifier)
  | attrBuilder (type : RequestType) (items : List DataItem) (buffer : List Nat)
  | attrSender (type : RequestType) (items : List DataItem)

/-- The driver after an operation. -/
def run (s : EMonCMS) : Operation → EMonCMS
  | .parseEMonCMSPacket header type buffer items =>
    (s.parseEMonCMSPacket header type buffer items).2
  | .registerNode millis0 millis1 => s.registerNode millis0 millis1
  | .postAttribute ident => (s.postAttribute ident).2
  | .attrBuilder _ _ _ => s
  | .attrSender type items => (s.attrSender type items).2

/-! ## Wire format and auxiliary definitions of the verification -/

/-- Bytes the items of a packet occupy on the wire: one tag byte and
`getTypeSize` value bytes each. -/
def itemsBytes (items : List DataItem) : Nat :=
  (items.map (fun it => 1 + getTypeSize it.type)).sum

/-- The value bytes of an item: the first `getTypeSize` bytes at its address. -/
def valueBytes (d : DataItem) : List Nat :=
  (List.range (getTypeSize d.type)).map (fun i => d.item.getD i 0)

/-- Wire form of one item, as the specification words it: the type tag, then
the value bytes. -/
def itemBytes (d : DataItem) : List Nat := d.type :: valueBytes d

/-- Wire form of an item sequence. -/
def encodeItems : List DataItem → List Nat
  | [] => []
  | d :: rest => itemBytes d ++ encodeItems rest

/-- Wire form of a packet, as the specification words it: the header
(`dataSize` as two bytes, `status`, `dataCount`), then the items. -/
def wirePacket (header : HeaderInfo) (items : List DataItem) : List Nat :=
  u16Bytes header.dataSize ++ [header.status, header.dataCount] ++ encodeItems items

/-- The NodeID item that `attrBuilder` injects: tag `USHORT`, address of the
`nodeID` member. -/
def nodeIDItem (nodeID : Nat) : DataItem := ⟨USHORT, u16Bytes nodeID⟩

/-- The views into a buffer that decoding the wire form of `items` yields when
`post` follows that wire form in the buffer. -/
def itemViews : List DataItem → List Nat → List DataItem
  | [], _ => []
  | d :: rest, post => ⟨d.type, valueBytes d ++ encodeItems rest ++ post⟩ :: itemViews rest post

/-- What an item carries: its tag and its value bytes. -/
def itemContent (d : DataItem) : Nat × List Nat := (d.type, valueBytes d)

/-- The driver `t` has the NodeID and the registry of `s`. -/
def keepsState (s t : EMonCMS) : Prop :=
  t.nodeID = s.nodeID ∧ t.attrValues = s.attrValues

/-- A register-ack: `parseEMonCMSPacket` with type 'r'. -/
def Operation.isRegisterAck : Operation → Bool
  | .parseEMonCMSPacket _ type _ _ => type = 114
  | _ => false

/-- An attribute-register-ack: `parseEMonCMSPacket` with type 'a'. -/
def Operation.isAttrRegisterAck : Operation → Bool
  | .parseEMonCMSPacket _ type _ _ => type = 97
  | _ => false

/-- Registry `after` has the entries of `before`, with the same identifiers and
readers, and every flag that was set is still set. -/
def flagsPreserved (before after : List AttributeValue) : Prop :=
  List.Forall₂ (fun a b => b.attr = a.attr ∧ b.reader = a.reader ∧
    (a.registered = true → b.registered = true)) before after

/-- The failure reply the specification describes for a request whose identity
items are `req`: status `status`, `dataCount` 4, the NodeID item and then
`req`. -/
def failurePacket (nodeID status : Nat) (req : List DataItem) : List Nat :=
  wirePacket ⟨3 + itemsBytes req, status, 4⟩ (nodeIDItem nodeID :: req)

/-- The items `requestAttribute` takes the identity from: slots 1, 2 and 3. -/
def identityItems (items : List DataItem) : List DataItem :=
  [items.getD 1 default, items.getD 2 default, items.getD 3 default]

/-- Byte count of a packet as the specification counts it: the 4 byte header,
the 3 byte NodeID item for the node scoped request types, and one tag byte plus
the value bytes per caller item. -/
def packetBytes (type : RequestType) (items : List DataItem) : Nat :=
  4 + (if type = ATTR_REGISTER ∨ type = ATTR_POST ∨ type = ATTR_FAILURE then 3 else 0)
    + itemsBytes items

/-- The attribute reader of the scenarios: it reads the `uint16_t` value 42. -/
def scenarioReader : AttributeIdentifier → Option DataItem :=
  fun _ => some ⟨USHORT, [42, 0]⟩

/-- The driver of the scenarios of the specification: one attribute with
identity (1, 2, 3), not yet registered, both notifications supplied, and a send
that reports the packet length. -/
def scenarioDriver (nodeID : Nat) : EMonCMS :=
  { nodeID := nodeID
    attrValues := [⟨⟨1, 2, 3⟩, scenarioReader, false⟩]
    lastRegisterRequest := 0
    networkSender := fun _ _ length => length
    attrRegistered := true
    nodeRegistered := true
    trace := [] }

/-- An inbound item section with four `USHORT` items: a NodeID and an identity
triple. -/
def requestBuffer (nodeID groupID attributeID attributeNumber : Nat) : List Nat :=
  [5, nodeID, 0, 5, groupID, 0, 5, attributeID, 0, 5, attributeNumber, 0]

/-! ## Definitions for the registration driver, posting and malformed input -/

/-- Embedding of the constructor `EMonCMS::EMonCMS`: the members are set from
the arguments and `lastRegisterRequest` is 0.  No host call has been made. -/
def new (values : List AttributeValue) (sender : Nat → List Nat → Nat → Nat)
    (attrRegistered nodeRegistered : Bool) (nodeID : Nat) : EMonCMS :=
  { nodeID := nodeID
    attrValues := values
    lastRegisterRequest := 0
    networkSender := sender
    attrRegistered := attrRegistered
    nodeRegistered := nodeRegistered
    trace := [] }

/-- The caller's `items` array after `parseEMonCMSPacket`: the decode loop has
run on it unless the type check returned first. -/
def parseEMonCMSPacketItems (header : HeaderInfo) (type : Nat) (buffer : List Nat)
    (items : List DataItem) : List DataItem :=
  if !isEMonCMSPacket type then items else decodeItems header buffer items

/-- The indices at which the decode loop of `parseEMonCMSPacket` reads
`buffer[index]`, for `n` iterations from read position `index`. -/
def decodeReads (buffer : List Nat) : Nat → Nat → List Nat
  | 0, _ => []
  | n + 1, index => index :: decodeReads buffer n (index + 1 + getTypeSize (buffer.getD index 0))

/-- The read position of the decode loop after `n` iterations from `index`. -/
def decodeEnd (buffer : List Nat) : Nat → Nat → Nat
  | 0, index => index
  | n + 1, index => decodeEnd buffer n (index + 1 + getTypeSize (buffer.getD index 0))

/-- The value `millis() - lastRegisterRequest` that `registerNode` compares with
the timeout, in 32 bit unsigned arithmetic. -/
def elapsedMillis (millis lastRegisterRequest : Nat) : Nat :=
  (millis % 4294967296 + 4294967296 - lastRegisterRequest % 4294967296) % 4294967296

/-- The packets handed to the outbound send in a trace, in order: type, bytes
and length. -/
def sentPackets : List Effect → List (Nat × List Nat × Nat)
  | [] => []
  | Effect.networkSender type buffer length :: rest => (type, buffer, length) :: sentPackets rest
  | _ :: rest => sentPackets rest

/-- The packet the specification describes for a registration or a post of the
attribute `attr` with value `item`: status `SUCCESS`, `dataCount` 5, and the
items NodeID, groupID, attributeID, attributeNumber and the value. -/
def attributePacket (nodeID : Nat) (attr : AttributeIdentifier) (item : DataItem) : List Nat :=
  wirePacket ⟨3 + itemsBytes (attrIdentAsDataItems attr ++ [item]), SUCCESS, 5⟩
    (nodeIDItem nodeID :: (attrIdentAsDataItems attr ++ [item]))

/-- The host calls of a registration pass as the specification words it, for
the entries `values`, the first of which has index `i`: a registered entry
gives none; an unregistered entry has its reader called and, when the reader
succeeds, one `ATTR_REGISTER` packet sent. -/
def registrationCalls (nodeID : Nat) : List AttributeValue → Nat → List Effect
  | [], _ => []
  | attrVal :: rest, i =>
    (if attrVal.registered then []
      else match attrVal.reader attrVal.attr with
        | none => [Effect.reader i attrVal.attr]
        | some item =>
          [Effect.reader i attrVal.attr,
            Effect.networkSender 65 (attributePacket nodeID attrVal.attr item)
              (17 + getTypeSize item.type)])
    ++ registrationCalls nodeID rest (i + 1)

/-- The `ATTR_REGISTER` packets of a registration pass as the specification
words it: in registry order, one for each entry that is not registered and
whose reader succeeds. -/
def registrationPackets (nodeID : Nat) (values : List AttributeValue) :
    List (Nat × List Nat × Nat) :=
  values.filterMap (fun attrVal =>
    if attrVal.registered then none
    else (attrVal.reader attrVal.attr).map (fun item =>
      (65, attributePacket nodeID attrVal.attr item, 17 + getTypeSize item.type)))

/-- The driver of the scenarios with an outbound send that always reports
failure. -/
def scenarioDriverSendFails (nodeID : Nat) : EMonCMS :=
  { scenarioDriver nodeID with networkSender := fun _ _ _ => 0 }

/-- The driver of the scenarios with an attribute reader that always fails. -/
def scenarioDriverReaderFails (nodeID : Nat) : EMonCMS :=
  { scenarioDriver nodeID with attrValues := [⟨⟨1, 2, 3⟩, fun _ => none, false⟩] }

/-! ## Sizes computed by `attrSize` and `attrBuilder` -/

theorem getTypeSize_le (type : Nat) : getTypeSize type ≤ 8 := by
  unfold getTypeSize
  split_ifs <;> omega

theorem foldl_size_eq (items : List DataItem) (a : Nat) (ha : a < 65536) :
    items.foldl (fun size it => (size + (getTypeSize it.type + 1)) % 65536) a
      = (a + itemsBytes items) % 65536 := by
  induction items generalizing a with
  | nil => simp [itemsBytes, Nat.mod_eq_of_lt ha]
  | cons it rest ih =>
    simp only [List.foldl_cons]
    rw [ih _ (Nat.mod_lt _ (by decide))]
    simp only [itemsBytes, List.map_cons, List.sum_cons]
    omega

theorem itemsDataSize_eq (items : List DataItem) :
    itemsDataSize items = itemsBytes items % 65536 := by
  have h := foldl_size_eq items 0 (by decide)
  unfold itemsDataSize
  rw [Nat.zero_add] at h
  rw [← h]
  congr 1
  funext size it
  omega

theorem writeItems_fst (items : List DataItem) (itemIndex : Nat) (buffer : List Nat)
    (h : itemIndex < 65536) :
    (writeItems items itemIndex buffer).1 = (itemIndex + itemsBytes items) % 65536 := by
  induction items generalizing itemIndex buffer with
  | nil => simp [writeItems, itemsBytes, Nat.mod_eq_of_lt h]
  | cons it rest ih =>
    simp only [writeItems]
    rw [ih _ _ (Nat.mod_lt _ (by decide))]
    simp only [itemsBytes, List.map_cons, List.sum_cons, dataItemToBuffer]
    omega

theorem attrSize_eq (type : RequestType) (items : List DataItem) :
    attrSize type items =
      (4 + (if type = ATTR_REGISTER ∨ type = ATTR_POST ∨ type = ATTR_FAILURE then 3 else 0)
        + itemsBytes items) % 65536 := by
  unfold attrSize
  simp only [foldl_size_eq items 4 (by decide)]
  cases type <;> simp <;> omega

theorem attrBuilder_fst (nodeID : Nat) (type : RequestType) (items : List DataItem)
    (buffer : List Nat) :
    (attrBuilder nodeID type items buffer).1 =
      match type with
      | .ATTR_REGISTER | .ATTR_POST =>
        if items.length ≠ 4 ∨ nodeID = 0 then 0 else (7 + itemsBytes items) % 65536
      | .ATTR_FAILURE =>
        if items.length ≠ 3 ∨ nodeID = 0 then 0 else (7 + itemsBytes items) % 65536
      | .NODE_REGISTER => (4 + itemsBytes items) % 65536
      | .ATTR_POST_RESPONSE => 0 := by
  cases type <;> simp only [attrBuilder]
  · rw [writeItems_fst _ _ _ (by decide)]
  · by_cases h1 : items.length = 4 <;> by_cases h2 : nodeID = 0 <;> simp [h1, h2]
    rw [writeItems_fst _ _ _ (Nat.mod_lt _ (by decide))]
    simp [dataItemToBuffer, getTypeSize]
  · by_cases h1 : items.length = 4 <;> by_cases h2 : nodeID = 0 <;> simp [h1, h2]
    rw [writeItems_fst _ _ _ (Nat.mod_lt _ (by decide))]
    simp [dataItemToBuffer, getTypeSize]
  · by_cases h1 : items.length = 3 <;> by_cases h2 : nodeID = 0 <;> simp [h1, h2]
    rw [writeItems_fst _ _ _ (Nat.mod_lt _ (by decide))]
    simp [dataItemToBuffer, getTypeSize]

theorem itemsBytes_le (items : List DataItem) : itemsBytes items ≤ 9 * items.length := by
  induction items with
  | nil => simp [itemsBytes]
  | cons it rest ih =>
    have := getTypeSize_le it.type
    simp only [itemsBytes, List.map_cons, List.sum_cons, List.length_cons] at ih ⊢
    omega

/-! ## Layout of the buffer that `attrBuilder` leaves -/

theorem valueBytes_length (d : DataItem) : (valueBytes d).length = getTypeSize d.type := by
  simp [valueBytes]

theorem itemBytes_length (d : DataItem) : (itemBytes d).length = 1 + getTypeSize d.type := by
  simp [itemBytes, valueBytes_length]; omega

theorem encodeItems_length (items : List DataItem) :
    (encodeItems items).length = itemsBytes items := by
  induction items with
  | nil => simp [encodeItems, itemsBytes]
  | cons d rest ih =>
    simp only [encodeItems, List.length_append, itemBytes_length, ih, itemsBytes, List.map_cons,
      List.sum_cons]

theorem wirePacket_length (header : HeaderInfo) (items : List DataItem) :
    (wirePacket header items).length = 4 + itemsBytes items := by
  simp [wirePacket, u16Bytes, encodeItems_length]
  omega

theorem set_length_append (pre post : List Nat) (x v : Nat) :
    (pre ++ x :: post).set pre.length v = pre ++ v :: post := by
  induction pre with
  | nil => simp
  | cons a pre ih => simp [ih]

theorem foldl_set_range (f : Nat → Nat) (n : Nat) :
    ∀ (pre old post : List Nat), old.length = n →
      (List.range n).foldl (fun b i => b.set (pre.length + i) (f i)) (pre ++ old ++ post)
        = pre ++ (List.range n).map f ++ post := by
  induction n with
  | zero =>
    intro pre old post h
    have : old = [] := List.length_eq_zero.mp h
    simp [this]
  | succ n ih =>
    intro pre old post h
    obtain ⟨old1, x, rfl⟩ : ∃ old1 x, old = old1 ++ [x] := by
      rcases List.eq_nil_or_concat old with h0 | ⟨l, a, h1⟩
      · subst h0; simp at h
      · exact ⟨l, a, by simpa using h1⟩
    have hl : old1.length = n := by simpa using h
    rw [List.range_succ, List.foldl_append, List.map_append]
    have e : pre ++ (old1 ++ [x]) ++ post = pre ++ old1 ++ (x :: post) := by simp
    rw [e, ih pre old1 (x :: post) hl]
    simp only [List.foldl_cons, List.foldl_nil, List.map_cons, List.map_nil]
    have hlen : pre.length + n = (pre ++ List.map f (List.range n)).length := by simp
    rw [hlen, set_length_append]
    simp

theorem dataItemToBuffer_frame (d : DataItem) (pre old post : List Nat)
    (h : old.length = 1 + getTypeSize d.type) :
    dataItemToBuffer d (pre ++ old ++ post) pre.length
      = (1 + getTypeSize d.type, pre ++ itemBytes d ++ post) := by
  obtain ⟨x, old1, rfl⟩ : ∃ x old1, old = x :: old1 := by
    cases old with
    | nil => simp at h; omega
    | cons x old1 => exact ⟨x, old1, rfl⟩
  have hl : old1.length = getTypeSize d.type := by simp at h; omega
  unfold dataItemToBuffer
  have e1 : (pre ++ x :: old1 ++ post).set pre.length d.type
      = (pre ++ [d.type]) ++ old1 ++ post := by
    have : pre ++ x :: old1 ++ post = pre ++ x :: (old1 ++ post) := by simp
    rw [this, set_length_append]; simp
  have e2 : (fun (b : List Nat) (i : Nat) => b.set (pre.length + (1 + i)) (d.item.getD i 0))
      = (fun (b : List Nat) (i : Nat) => b.set ((pre ++ [d.type]).length + i) (d.item.getD i 0)) := by
    funext b i
    simp [Nat.add_assoc]
  simp only [e1, e2]
  rw [foldl_set_range (fun i => d.item.getD i 0) _ (pre ++ [d.type]) old1 post hl]
  simp [itemBytes, valueBytes]

theorem writeItems_frame (items : List DataItem) :
    ∀ (pre old post : List Nat), old.length = itemsBytes items →
      pre.length + itemsBytes items < 65536 →
      writeItems items pre.length (pre ++ old ++ post)
        = (pre.length + itemsBytes items, pre ++ encodeItems items ++ post) := by
  induction items with
  | nil =>
    intro pre old post h _
    have : old = [] := List.length_eq_zero.mp (by simpa [itemsBytes] using h)
    simp [writeItems, itemsBytes, encodeItems, this]
  | cons d rest ih =>
    intro pre old post h hlt
    have hs : itemsBytes (d :: rest) = (1 + getTypeSize d.type) + itemsBytes rest := by
      simp [itemsBytes]
    rw [hs] at h hlt
    have e : pre ++ old ++ post
        = pre ++ old.take (1 + getTypeSize d.type) ++ (old.drop (1 + getTypeSize d.type) ++ post) := by
      rw [List.append_assoc, List.append_assoc, ← List.append_assoc (List.take _ old),
        List.take_append_drop]
    have h1 : (old.take (1 + getTypeSize d.type)).length = 1 + getTypeSize d.type := by
      simp; omega
    have h2 : (old.drop (1 + getTypeSize d.type)).length = itemsBytes rest := by
      simp; omega
    simp only [writeItems]
    rw [e, dataItemToBuffer_frame d pre _ _ h1]
    simp only
    have hidx : (pre.length + (1 + getTypeSize d.type)) % 65536 = (pre ++ itemBytes d).length := by
      rw [Nat.mod_eq_of_lt (by omega)]
      simp [itemBytes_length]
    have e3 : pre ++ itemBytes d ++ (old.drop (1 + getTypeSize d.type) ++ post)
        = (pre ++ itemBytes d) ++ old.drop (1 + getTypeSize d.type) ++ post := by simp
    rw [hidx, e3, ih (pre ++ itemBytes d) _ post h2 (by simp [itemBytes_length]; omega)]
    simp [itemBytes_length, encodeItems, hs]
    omega

theorem writeNodeID_frame (nodeID : Nat) (items : List DataItem) (hdr rest : List Nat)
    (hlen : hdr.length = 4) (hfit : 3 + itemsBytes items ≤ rest.length)
    (hsmall : itemsBytes items < 65000) :
    writeItems items ((4 + (dataItemToBuffer ⟨USHORT, u16Bytes nodeID⟩ (hdr ++ rest) 4).1) % 65536)
        (dataItemToBuffer ⟨USHORT, u16Bytes nodeID⟩ (hdr ++ rest) 4).2
      = (7 + itemsBytes items,
          hdr ++ itemBytes (nodeIDItem nodeID) ++ encodeItems items
            ++ rest.drop (3 + itemsBytes items)) := by
  have hw : getTypeSize USHORT = 2 := by decide
  have e1 : hdr ++ rest = hdr ++ rest.take 3 ++ rest.drop 3 := by
    rw [List.append_assoc, List.take_append_drop]
  have h1 : (rest.take 3).length = 1 + getTypeSize (DataItem.mk USHORT (u16Bytes nodeID)).type := by
    simp [hw]; omega
  have hd := dataItemToBuffer_frame ⟨USHORT, u16Bytes nodeID⟩ hdr (rest.take 3) (rest.drop 3) h1
  rw [hlen, ← e1] at hd
  rw [hd]
  simp only [hw]
  have e2 : hdr ++ itemBytes ⟨USHORT, u16Bytes nodeID⟩ ++ rest.drop 3
      = (hdr ++ itemBytes ⟨USHORT, u16Bytes nodeID⟩) ++ (rest.drop 3).take (itemsBytes items)
          ++ (rest.drop 3).drop (itemsBytes items) := by
    rw [List.append_assoc (hdr ++ _), List.take_append_drop]
  have h2 : ((rest.drop 3).take (itemsBytes items)).length = itemsBytes items := by
    simp; omega
  have hpl : (hdr ++ itemBytes ⟨USHORT, u16Bytes nodeID⟩).length = 7 := by
    simp [itemBytes_length, hlen, hw]
  have hw2 := writeItems_frame items (hdr ++ itemBytes ⟨USHORT, u16Bytes nodeID⟩)
    ((rest.drop 3).take (itemsBytes items)) ((rest.drop 3).drop (itemsBytes items)) h2
    (by rw [hpl]; omega)
  rw [hpl, ← e2] at hw2
  have e3 : (4 + (1 + 2)) % 65536 = 7 := by decide
  rw [e3, hw2]
  simp [nodeIDItem, List.drop_drop, Nat.add_comm]

theorem u16Bytes_mod (v : Nat) : u16Bytes (v % 65536) = u16Bytes v := by
  simp only [u16Bytes]
  congr 1
  · omega
  · congr 1
    omega

theorem attrBuilder_layout (nodeID : Nat) (type : RequestType) (items : List DataItem)
    (buffer : List Nat) (hn : nodeID ≠ 0)
    (ht : (type = ATTR_REGISTER ∨ type = ATTR_POST) ∧ items.length = 4 ∨
      type = ATTR_FAILURE ∧ items.length = 3)
    (hfit : 7 + itemsBytes items ≤ buffer.length) :
    attrBuilder nodeID type items buffer
      = (7 + itemsBytes items,
          wirePacket ⟨3 + itemsBytes items, if type = ATTR_FAILURE then FAILURE else SUCCESS,
              1 + items.length⟩ (nodeIDItem nodeID :: items)
            ++ buffer.drop (7 + itemsBytes items)) := by
  have hle := itemsBytes_le items
  have hsmall : itemsBytes items < 65000 := by
    rcases ht with ⟨_, h⟩ | ⟨_, h⟩ <;> omega
  obtain ⟨b0, b1, b2, b3, rest, rfl⟩ : ∃ b0 b1 b2 b3 rest, buffer = b0 :: b1 :: b2 :: b3 :: rest := by
    match buffer, hfit with
    | b0 :: b1 :: b2 :: b3 :: rest, _ => exact ⟨b0, b1, b2, b3, rest, rfl⟩
    | [], h | [_], h | [_, _], h | [_, _, _], h => simp at h <;> omega
  have hrest : 3 + itemsBytes items ≤ rest.length := by simp at hfit; omega
  have key : ∀ (status count : Nat),
      writeItems items
          ((4 + (dataItemToBuffer ⟨USHORT, u16Bytes nodeID⟩
            (((writeU16 ((writeU16 (b0 :: b1 :: b2 :: b3 :: rest) 0 (itemsDataSize items)).set 3 count) 0
              ((itemsDataSize items + (2 + 1)) % 65536)).set 2 status)) 4).1) % 65536)
          (dataItemToBuffer ⟨USHORT, u16Bytes nodeID⟩
            (((writeU16 ((writeU16 (b0 :: b1 :: b2 :: b3 :: rest) 0 (itemsDataSize items)).set 3 count) 0
              ((itemsDataSize items + (2 + 1)) % 65536)).set 2 status)) 4).2
        = (7 + itemsBytes items,
            wirePacket ⟨3 + itemsBytes items, status, count⟩ (nodeIDItem nodeID :: items)
              ++ (b0 :: b1 :: b2 :: b3 :: rest).drop (7 + itemsBytes items)) := by
    intro status count
    have e : ((writeU16 ((writeU16 (b0 :: b1 :: b2 :: b3 :: rest) 0 (itemsDataSize items)).set 3 count) 0
              ((itemsDataSize items + (2 + 1)) % 65536)).set 2 status)
        = (u16Bytes (3 + itemsBytes items) ++ [status, count]) ++ rest := by
      rw [itemsDataSize_eq, ← u16Bytes_mod (3 + itemsBytes items)]
      have : (itemsBytes items % 65536 + (2 + 1)) % 65536 = (3 + itemsBytes items) % 65536 := by
        omega
      rw [this]
      simp [writeU16, u16Bytes]
    rw [e, writeNodeID_frame nodeID items _ rest (by simp [u16Bytes]) hrest hsmall]
    have hd : (b0 :: b1 :: b2 :: b3 :: rest).drop (7 + itemsBytes items)
        = rest.drop (3 + itemsBytes items) := by
      have : 7 + itemsBytes items = (3 + itemsBytes items) + 4 := by omega
      rw [this]
      simp [List.drop_succ_cons]
    rw [hd]
    simp [wirePacket, encodeItems]
  rcases ht with ⟨h | h, hl⟩ | ⟨h, hl⟩
  · subst h
    simp only [attrBuilder, hl, hn]
    simpa using key SUCCESS 5
  · subst h
    simp only [attrBuilder, hl, hn]
    simpa using key SUCCESS 5
  · subst h
    simp only [attrBuilder, hl, hn]
    simpa using key FAILURE 4

theorem attrBuilder_layout_node_register (nodeID : Nat) (items : List DataItem)
    (buffer : List Nat) (hfit : 4 + itemsBytes items ≤ buffer.length)
    (hsmall : 4 + itemsBytes items < 65536) :
    attrBuilder nodeID NODE_REGISTER items buffer
      = (4 + itemsBytes items,
          wirePacket ⟨0, SUCCESS, 0⟩ items ++ buffer.drop (4 + itemsBytes items)) := by
  obtain ⟨b0, b1, b2, b3, rest, rfl⟩ : ∃ b0 b1 b2 b3 rest, buffer = b0 :: b1 :: b2 :: b3 :: rest := by
    match buffer, hfit with
    | b0 :: b1 :: b2 :: b3 :: rest, _ => exact ⟨b0, b1, b2, b3, rest, rfl⟩
    | [], h | [_], h | [_, _], h | [_, _, _], h => simp at h <;> omega
  have hrest : itemsBytes items ≤ rest.length := by simp at hfit; omega
  have e : writeU16 (((writeU16 (b0 :: b1 :: b2 :: b3 :: rest) 0 (itemsDataSize items)).set 2
      SUCCESS).set 3 0) 0 0 = [0, 0, 0, 0] ++ rest.take (itemsBytes items)
        ++ rest.drop (itemsBytes items) := by
    simp [writeU16]
  have hw := writeItems_frame items [0, 0, 0, 0] (rest.take (itemsBytes items))
    (rest.drop (itemsBytes items)) (by simp; omega) (by simp; omega)
  have hd : (b0 :: b1 :: b2 :: b3 :: rest).drop (4 + itemsBytes items)
      = rest.drop (itemsBytes items) := by
    have : 4 + itemsBytes items = itemsBytes items + 4 := by omega
    rw [this]
    simp [List.drop_succ_cons]
  simp only [attrBuilder]
  rw [e, hd]
  simp only [List.length_cons, List.length_nil] at hw
  exact hw.trans (by simp [wirePacket, u16Bytes])

/-- The packet a successful build leaves in a buffer of exactly the packet size
does not depend on what the buffer held before: a stack array may be taken as
zero filled. -/
theorem attrBuilder_buffer_independent (nodeID : Nat) (type : RequestType)
    (items : List DataItem) (buffer1 buffer2 : List Nat)
    (h1 : buffer1.length = packetBytes type items) (h2 : buffer2.length = packetBytes type items)
    (hsmall : packetBytes type items < 65536)
    (hs : (attrBuilder nodeID type items buffer1).1 ≠ 0) :
    attrBuilder nodeID type items buffer1 = attrBuilder nodeID type items buffer2 := by
  have hs2 : (attrBuilder nodeID type items buffer2).1 ≠ 0 := by
    rw [attrBuilder_fst] at hs ⊢
    exact hs
  rw [attrBuilder_fst] at hs
  cases type with
  | NODE_REGISTER =>
    have hp : packetBytes NODE_REGISTER items = 4 + itemsBytes items := by simp [packetBytes]
    rw [hp] at h1 h2 hsmall
    rw [attrBuilder_layout_node_register nodeID items buffer1 (by omega) hsmall,
      attrBuilder_layout_node_register nodeID items buffer2 (by omega) hsmall,
      List.drop_of_length_le (by omega), List.drop_of_length_le (by omega)]
  | ATTR_POST_RESPONSE => simp at hs
  | ATTR_REGISTER =>
    have hp : packetBytes ATTR_REGISTER items = 7 + itemsBytes items := by simp [packetBytes]
    have hc : items.length = 4 ∧ nodeID ≠ 0 := by
      by_contra hc
      simp only [not_and_or, not_not] at hc
      simp [hc] at hs
    rw [hp] at h1 h2
    rw [attrBuilder_layout nodeID _ items buffer1 hc.2 (Or.inl ⟨Or.inl rfl, hc.1⟩) (by omega),
      attrBuilder_layout nodeID _ items buffer2 hc.2 (Or.inl ⟨Or.inl rfl, hc.1⟩) (by omega),
      List.drop_of_length_le (by omega), List.drop_of_length_le (by omega)]
  | ATTR_POST =>
    have hp : packetBytes ATTR_POST items = 7 + itemsBytes items := by simp [packetBytes]
    have hc : items.length = 4 ∧ nodeID ≠ 0 := by
      by_contra hc
      simp only [not_and_or, not_not] at hc
      simp [hc] at hs
    rw [hp] at h1 h2
    rw [attrBuilder_layout nodeID _ items buffer1 hc.2 (Or.inl ⟨Or.inr rfl, hc.1⟩) (by omega),
      attrBuilder_layout nodeID _ items buffer2 hc.2 (Or.inl ⟨Or.inr rfl, hc.1⟩) (by omega),
      List.drop_of_length_le (by omega), List.drop_of_length_le (by omega)]
  | ATTR_FAILURE =>
    have hp : packetBytes ATTR_FAILURE items = 7 + itemsBytes items := by simp [packetBytes]
    have hc : items.length = 3 ∧ nodeID ≠ 0 := by
      by_contra hc
      simp only [not_and_or, not_not] at hc
      simp [hc] at hs
    rw [hp] at h1 h2
    rw [attrBuilder_layout nodeID _ items buffer1 hc.2 (Or.inr ⟨rfl, hc.1⟩) (by omega),
      attrBuilder_layout nodeID _ items buffer2 hc.2 (Or.inr ⟨rfl, hc.1⟩) (by omega),
      List.drop_of_length_le (by omega), List.drop_of_length_le (by omega)]

theorem stackBuffer_length (size : Nat) : (stackBuffer size).length = size := by
  simp [stackBuffer]

/-! ## Decoding -/

theorem itemViews_length (items : List DataItem) (post : List Nat) :
    (itemViews items post).length = items.length := by
  induction items with
  | nil => rfl
  | cons d rest ih => simp [itemViews, ih]

theorem valueBytes_view (type : Nat) (item more : List Nat) :
    valueBytes ⟨type, valueBytes ⟨type, item⟩ ++ more⟩ = valueBytes ⟨type, item⟩ := by
  simp only [valueBytes]
  apply List.map_congr_left
  intro i hi
  have hi2 : i < getTypeSize type := List.mem_range.mp hi
  have hlen : i < ((List.range (getTypeSize type)).map (fun i => item.getD i 0)).length := by
    simpa using hi2
  rw [List.getD_eq_getElem?_getD, List.getElem?_append_left hlen]
  simp [List.getElem?_map, List.getElem?_range hi2]

theorem itemViews_content (items : List DataItem) (post : List Nat) :
    (itemViews items post).map itemContent = items.map itemContent := by
  induction items with
  | nil => rfl
  | cons d rest ih =>
    obtain ⟨type, item⟩ := d
    simp only [itemViews, List.map_cons, ih, itemContent, List.append_assoc, valueBytes_view]

theorem decodeLoop_frame (items : List DataItem) :
    ∀ (pre post : List Nat) (a o p : List DataItem), o.length = items.length →
      decodeLoop (pre ++ encodeItems items ++ post) items.length a.length pre.length (a ++ o ++ p)
        = a ++ itemViews items post ++ p := by
  induction items with
  | nil =>
    intro pre post a o p h
    have : o = [] := List.length_eq_zero.mp (by simpa using h)
    simp [decodeLoop, itemViews, this]
  | cons d rest ih =>
    intro pre post a o p h
    obtain ⟨x, o1, rfl⟩ : ∃ x o1, o = x :: o1 := by
      cases o with
      | nil => simp at h
      | cons x o1 => exact ⟨x, o1, rfl⟩
    have hl : o1.length = rest.length := by simpa using h
    have hb : pre ++ encodeItems (d :: rest) ++ post
        = pre ++ d.type :: (valueBytes d ++ encodeItems rest ++ post) := by
      simp [encodeItems, itemBytes]
    have htag : (pre ++ encodeItems (d :: rest) ++ post).getD pre.length 0 = d.type := by
      rw [hb, List.getD_eq_getElem?_getD, List.getElem?_append_right (Nat.le_refl _)]
      simp
    have hdrop : (pre ++ encodeItems (d :: rest) ++ post).drop (pre.length + 1)
        = valueBytes d ++ encodeItems rest ++ post := by
      have hb2 : pre ++ d.type :: (valueBytes d ++ encodeItems rest ++ post)
          = (pre ++ [d.type]) ++ (valueBytes d ++ encodeItems rest ++ post) := by simp
      rw [hb, hb2]
      exact List.drop_left' (by simp)
    have hset : (a ++ x :: o1 ++ p).set a.length
          ⟨d.type, valueBytes d ++ encodeItems rest ++ post⟩
        = (a ++ [⟨d.type, valueBytes d ++ encodeItems rest ++ post⟩]) ++ o1 ++ p := by
      have e : a ++ x :: o1 ++ p = a ++ x :: (o1 ++ p) := by simp
      rw [e]
      clear ih h hl hb htag hdrop
      induction a with
      | nil => simp
      | cons y a iha => simp [iha]
    have hnext : pre ++ encodeItems (d :: rest) ++ post
        = (pre ++ itemBytes d) ++ encodeItems rest ++ post := by
      simp [encodeItems]
    have hidx : pre.length + 1 + getTypeSize d.type = (pre ++ itemBytes d).length := by
      simp [itemBytes_length]; omega
    have hi : a.length + 1 = (a ++ [(⟨d.type, valueBytes d ++ encodeItems rest ++ post⟩ : DataItem)]).length := by
      simp
    simp only [List.length_cons, decodeLoop, htag, hdrop, hset]
    rw [hidx, hi, hnext, ih _ post _ o1 p hl]
    simp [itemViews]

theorem decodeLoop_getD_lt (buffer : List Nat) (n : Nat) :
    ∀ (i index : Nat) (items : List DataItem) (j : Nat), j < i →
      (decodeLoop buffer n i index items).getD j default = items.getD j default := by
  induction n with
  | zero => intro i index items j _; rfl
  | succ n ih =>
    intro i index items j hj
    simp only [decodeLoop]
    rw [ih (i + 1) _ _ j (by omega)]
    simp only [List.getD_eq_getElem?_getD]
    rw [List.getElem?_set_ne (by omega)]

theorem decodeItems_head (header : HeaderInfo) (buffer : List Nat) (items : List DataItem)
    (hc : 0 < header.dataCount) (hi : 0 < items.length) :
    (decodeItems header buffer items).getD 0 default = ⟨buffer.getD 0 0, buffer.drop 1⟩ := by
  unfold decodeItems
  rw [if_pos hc]
  obtain ⟨n, hn⟩ : ∃ n, header.dataCount = n + 1 := ⟨header.dataCount - 1, by omega⟩
  rw [hn]
  simp only [decodeLoop]
  rw [decodeLoop_getD_lt buffer n 1 _ _ 0 (by omega)]
  simp only [List.getD_eq_getElem?_getD]
  rw [List.getElem?_set_self hi]
  rfl

theorem headerOf_wirePacket_append (header : HeaderInfo) (items : List DataItem)
    (post : List Nat) (h : header.dataSize < 65536) :
    headerOf (wirePacket header items ++ post) = header := by
  obtain ⟨dataSize, status, dataCount⟩ := header
  simp only [headerOf, wirePacket, u16Bytes, readU16]
  simp
  simp at h
  omega

theorem decodeItems_wirePacket_append (header : HeaderInfo) (items arr : List DataItem)
    (post : List Nat) (hc : header.dataCount = items.length) (ha : arr.length = items.length) :
    decodeItems header ((wirePacket header items ++ post).drop 4) arr = itemViews items post := by
  have hd : (wirePacket header items ++ post).drop 4 = encodeItems items ++ post := by
    simp [wirePacket, u16Bytes]
  rw [hd]
  unfold decodeItems
  split_ifs with h
  · have := decodeLoop_frame items [] post [] arr [] ha
    simp only [List.nil_append, List.append_nil, List.length_nil] at this
    rw [hc, this]
  · have h0 : items.length = 0 := by omega
    have hi : items = [] := List.length_eq_zero.mp h0
    have harr : arr = [] := List.length_eq_zero.mp (by omega)
    simp [hi, harr, itemViews]

theorem headerOf_wirePacket (header : HeaderInfo) (items : List DataItem)
    (h : header.dataSize < 65536) : headerOf (wirePacket header items) = header := by
  simpa using headerOf_wirePacket_append header items [] h

theorem decodeItems_wirePacket (header : HeaderInfo) (items arr : List DataItem)
    (hc : header.dataCount = items.length) (ha : arr.length = items.length) :
    decodeItems header ((wirePacket header items).drop 4) arr = itemViews items [] := by
  simpa using decodeItems_wirePacket_append header items arr [] hc ha

theorem readU16_valueBytes_append (d : DataItem) (more : List Nat)
    (h : 2 ≤ getTypeSize d.type) : readU16 (valueBytes d ++ more) = readU16 d.item := by
  have h0 : (valueBytes d ++ more).getD 0 0 = d.item.getD 0 0 := by
    rw [List.getD_eq_getElem?_getD, List.getElem?_append_left (by rw [valueBytes_length]; omega)]
    simp [valueBytes, List.getElem?_map, List.getElem?_range (show 0 < getTypeSize d.type by omega)]
  have h1 : (valueBytes d ++ more).getD 1 0 = d.item.getD 1 0 := by
    rw [List.getD_eq_getElem?_getD, List.getElem?_append_left (by rw [valueBytes_length]; omega)]
    simp [valueBytes, List.getElem?_map, List.getElem?_range (show 1 < getTypeSize d.type by omega)]
  simp only [readU16, h0, h1]

theorem identOfItems_itemViews (n a b c : DataItem) (post : List Nat)
    (ha : 2 ≤ getTypeSize a.type) (hb : 2 ≤ getTypeSize b.type) (hc : 2 ≤ getTypeSize c.type) :
    identOfItems (itemViews [n, a, b, c] post)
      = ⟨readU16 a.item, readU16 b.item, readU16 c.item⟩ := by
  simp only [identOfItems, itemViews, List.getD_cons_succ, List.getD_cons_zero, List.append_assoc,
    readU16_valueBytes_append a _ ha, readU16_valueBytes_append b _ hb,
    readU16_valueBytes_append c _ hc]

/-- Round trip for the node scoped request types. -/
theorem attrBuilder_decode_roundtrip (nodeID : Nat) (type : RequestType)
    (items : List DataItem) (buffer : List Nat) (arr : List DataItem) (hn : nodeID ≠ 0)
    (ht : (type = ATTR_REGISTER ∨ type = ATTR_POST) ∧ items.length = 4 ∨
      type = ATTR_FAILURE ∧ items.length = 3)
    (hfit : 7 + itemsBytes items ≤ buffer.length) (harr : arr.length = 1 + items.length) :
    (decodeItems (headerOf (attrBuilder nodeID type items buffer).2)
        ((attrBuilder nodeID type items buffer).2.drop 4) arr).map itemContent
      = (nodeIDItem nodeID :: items).map itemContent := by
  have hle := itemsBytes_le items
  have hsmall : 3 + itemsBytes items < 65536 := by
    rcases ht with ⟨_, h⟩ | ⟨_, h⟩ <;> omega
  rw [attrBuilder_layout nodeID type items buffer hn ht hfit]
  simp only
  rw [headerOf_wirePacket_append _ _ _ hsmall,
    decodeItems_wirePacket_append _ _ arr _ (by simp; omega) (by simp [harr]; omega),
    itemViews_content]

/-- Header written for the node scoped request types. -/
theorem attrBuilder_header (nodeID : Nat) (type : RequestType)
    (items : List DataItem) (buffer : List Nat) (hn : nodeID ≠ 0)
    (ht : (type = ATTR_REGISTER ∨ type = ATTR_POST) ∧ items.length = 4 ∨
      type = ATTR_FAILURE ∧ items.length = 3)
    (hfit : 7 + itemsBytes items ≤ buffer.length) :
    headerOf (attrBuilder nodeID type items buffer).2
      = ⟨(attrBuilder nodeID type items buffer).1 - 4,
          if type = ATTR_FAILURE then FAILURE else SUCCESS, (nodeIDItem nodeID :: items).length⟩ := by
  have hle := itemsBytes_le items
  have hsmall : 3 + itemsBytes items < 65536 := by
    rcases ht with ⟨_, h⟩ | ⟨_, h⟩ <;> omega
  rw [attrBuilder_layout nodeID type items buffer hn ht hfit]
  simp only
  rw [headerOf_wirePacket_append _ _ _ hsmall]
  simp
  omega

/-! ## Registry lookups and flags -/

theorem compareAttribute_eq_zero (a b : AttributeIdentifier) :
    compareAttribute (some a) (some b) = 0 ↔ a = b := by
  obtain ⟨g1, a1, n1⟩ := a
  obtain ⟨g2, a2, n2⟩ := b
  simp only [compareAttribute, AttributeIdentifier.mk.injEq]
  split_ifs with h
  · simp [h]
  · simp [h]

theorem getAttributeLoop_some (ident : AttributeIdentifier) (l : List AttributeValue) :
    ∀ (i k : Nat), getAttributeLoop (some ident) l i = some k →
      i ≤ k ∧ ∃ attrVal, l.get? (k - i) = some attrVal ∧ attrVal.attr = ident := by
  induction l with
  | nil => intro i k h; simp [getAttributeLoop] at h
  | cons v rest ih =>
    intro i k h
    simp only [getAttributeLoop] at h
    split_ifs at h with hc
    · have hk : i = k := by simpa using h
      subst hk
      exact ⟨Nat.le_refl _, v, by simp, (compareAttribute_eq_zero _ _).mp hc⟩
    · obtain ⟨hle, av, hget, hattr⟩ := ih (i + 1) k h
      refine ⟨by omega, av, ?_, hattr⟩
      have : k - i = (k - (i + 1)) + 1 := by omega
      rw [this]
      simpa using hget

theorem getAttribute_some (s : EMonCMS) (ident : AttributeIdentifier) (k : Nat)
    (h : s.getAttribute (some ident) = some k) :
    ∃ attrVal, s.attrValues.get? k = some attrVal ∧ attrVal.attr = ident := by
  obtain ⟨_, av, hget, hattr⟩ := getAttributeLoop_some ident s.attrValues 0 k h
  exact ⟨av, by simpa using hget, hattr⟩

theorem flagsPreserved_refl (l : List AttributeValue) : flagsPreserved l l := by
  induction l with
  | nil => exact List.Forall₂.nil
  | cons v rest ih => exact List.Forall₂.cons ⟨rfl, rfl, id⟩ ih

theorem flagsPreserved_set (l : List AttributeValue) :
    ∀ (k : Nat) (attrVal : AttributeValue), l.get? k = some attrVal →
      flagsPreserved l (l.set k { attrVal with registered := true }) := by
  induction l with
  | nil => intro k attrVal h; simp at h
  | cons v rest ih =>
    intro k attrVal h
    cases k with
    | zero =>
      have hv : v = attrVal := by simpa using h
      subst hv
      exact List.Forall₂.cons ⟨rfl, rfl, fun _ => rfl⟩ (flagsPreserved_refl rest)
    | succ k =>
      have hr : rest.get? k = some attrVal := by simpa using h
      exact List.Forall₂.cons ⟨rfl, rfl, id⟩ (ih k attrVal hr)

theorem flagsPreserved_markRegistered (l : List AttributeValue) (k : Nat) :
    flagsPreserved l (markRegistered l k) := by
  unfold markRegistered
  split
  · exact flagsPreserved_refl l
  · rename_i attrVal hget
    exact flagsPreserved_set l k attrVal hget

/-! ## What the operations leave unchanged -/

theorem keepsState_refl (s : EMonCMS) : keepsState s s := ⟨rfl, rfl⟩

theorem keepsState_trans {s t u : EMonCMS} (h1 : keepsState s t) (h2 : keepsState t u) :
    keepsState s u := ⟨h2.1.trans h1.1, h2.2.trans h1.2⟩

theorem keepsState_trace (s : EMonCMS) (trace : List Effect) :
    keepsState s { s with trace := trace } := ⟨rfl, rfl⟩

theorem attrSender_keeps (s : EMonCMS) (type : RequestType) (items : List DataItem) :
    keepsState s (attrSender s type items).2 := by
  unfold attrSender
  simp only
  split_ifs <;> exact ⟨rfl, rfl⟩

theorem registerAttribute_keeps (s : EMonCMS) (i : Nat) :
    keepsState s (registerAttribute s i) := by
  unfold registerAttribute
  split
  · exact keepsState_refl s
  · split_ifs
    · split
      · exact ⟨rfl, rfl⟩
      · exact keepsState_trans (keepsState_trace s _) (attrSender_keeps _ _ _)
    · exact keepsState_refl s

theorem foldl_registerAttribute_keeps (l : List Nat) (s : EMonCMS) :
    keepsState s (l.foldl registerAttribute s) := by
  induction l generalizing s with
  | nil => exact keepsState_refl s
  | cons i rest ih =>
    exact keepsState_trans (registerAttribute_keeps s i) (ih _)

theorem registerNode_keeps (s : EMonCMS) (millis0 millis1 : Nat) :
    keepsState s (s.registerNode millis0 millis1) := by
  unfold registerNode
  split_ifs
  · exact keepsState_trans (attrSender_keeps s NODE_REGISTER []) ⟨rfl, rfl⟩
  · exact keepsState_trans (foldl_registerAttribute_keeps _ s) ⟨rfl, rfl⟩
  · exact keepsState_refl s

theorem postAttribute_keeps (s : EMonCMS) (ident : AttributeIdentifier) :
    keepsState s (s.postAttribute ident).2 := by
  unfold postAttribute
  split
  · exact keepsState_refl s
  · split
    · exact ⟨rfl, rfl⟩
    · exact keepsState_trans (keepsState_trace s _) (attrSender_keeps _ _ _)

theorem requestAttributeFailure_keeps (s : EMonCMS) (status : Nat) (items : List DataItem) :
    keepsState s (requestAttributeFailure s status items).2 := by
  unfold requestAttributeFailure
  simp only
  split_ifs <;> exact ⟨rfl, rfl⟩

theorem requestAttributeSuccess_keeps (s : EMonCMS) (item : DataItem) (items : List DataItem) :
    keepsState s (requestAttributeSuccess s item items).2 := by
  unfold requestAttributeSuccess
  simp only
  split_ifs <;> exact ⟨rfl, rfl⟩

theorem requestAttribute_keeps (s : EMonCMS) (items : List DataItem) :
    keepsState s (requestAttribute s items).2 := by
  unfold requestAttribute
  simp only
  split
  · exact requestAttributeFailure_keeps s _ items
  · split
    · exact keepsState_trans (keepsState_trace s _) (requestAttributeFailure_keeps _ _ items)
    · exact keepsState_trans (keepsState_trace s _) (requestAttributeSuccess_keeps _ _ items)

theorem parse_nodeID (s : EMonCMS) (header : HeaderInfo) (type : Nat) (buffer : List Nat)
    (items : List DataItem) (ht : type ≠ 114) :
    (s.parseEMonCMSPacket header type buffer items).2.nodeID = s.nodeID := by
  unfold parseEMonCMSPacket
  simp only [ht, if_false]
  split_ifs <;>
    first
    | rfl
    | exact (requestAttribute_keeps s _).1
    | (split <;> rfl)

theorem parse_attrValues (s : EMonCMS) (header : HeaderInfo) (type : Nat) (buffer : List Nat)
    (items : List DataItem) (ht : type ≠ 97) :
    (s.parseEMonCMSPacket header type buffer items).2.attrValues = s.attrValues := by
  unfold parseEMonCMSPacket
  simp only [ht, if_false]
  split_ifs <;>
    first
    | rfl
    | exact (requestAttribute_keeps s _).2

theorem parse_attrValues_cases (s : EMonCMS) (header : HeaderInfo) (type : Nat)
    (buffer : List Nat) (items : List DataItem) :
    (s.parseEMonCMSPacket header type buffer items).2.attrValues = s.attrValues ∨
    ∃ k, (s.parseEMonCMSPacket header type buffer items).2.attrValues
      = markRegistered s.attrValues k := by
  by_cases ht : type = 97
  · subst ht
    cases hk : s.getAttribute (some (identOfItems (decodeItems header buffer items))) with
    | none =>
      left
      simp [parseEMonCMSPacket, isEMonCMSPacket, hk]
    | some k =>
      right
      refine ⟨k, ?_⟩
      by_cases h : s.attrRegistered <;> simp [parseEMonCMSPacket, isEMonCMSPacket, hk, h]
  · left
    exact parse_attrValues s header type buffer items ht

theorem requestAttributeFailure_eq (s : EMonCMS) (status : Nat) (items : List DataItem)
    (hn : s.nodeID ≠ 0) :
    requestAttributeFailure s status items
      = (true, { s with trace := s.trace ++
          [Effect.networkSender 112 (failurePacket s.nodeID status (identityItems items))
            (7 + itemsBytes (identityItems items))] }) := by
  have hle := itemsBytes_le (identityItems items)
  have hlen : (identityItems items).length = 3 := rfl
  have hsize : attrSize ATTR_FAILURE (identityItems items) = 7 + itemsBytes (identityItems items) := by
    rw [attrSize_eq]
    simp
    omega
  have hb := attrBuilder_layout s.nodeID ATTR_FAILURE (identityItems items)
    (stackBuffer (7 + itemsBytes (identityItems items))) hn (Or.inr ⟨rfl, hlen⟩)
    (by rw [stackBuffer_length])
  have hdrop : (stackBuffer (7 + itemsBytes (identityItems items))).drop
      (7 + itemsBytes (identityItems items)) = [] := by
    simp [stackBuffer]
  rw [hdrop, List.append_nil] at hb
  unfold requestAttributeFailure
  simp only
  rw [show [items.getD 1 default, items.getD 2 default, items.getD 3 default]
    = identityItems items from rfl, hsize, hb]
  simp [failurePacket, wirePacket, u16Bytes, hlen]

/-! ## Claims C1 to C10 -/

/-- Claim C1.  Whenever `attrBuilder` succeeds (returns a non-zero length),
`attrSize` of the same request type and items is the value `attrBuilder`
returns.  That value is the packet byte count (4 header bytes, 3 bytes of
NodeID item for the node scoped types, one tag byte and `getTypeSize` value
bytes per caller item) as a `uint16_t`; when the count fits 16 bits and the
buffer holds it, it is the count itself, and the call has replaced exactly that
many leading bytes of the buffer and left the bytes after them as they were. -/
theorem attrSize_eq_attrBuilder (nodeID : Nat) (type : RequestType) (items : List DataItem)
    (buffer : List Nat) (h : (attrBuilder nodeID type items buffer).1 ≠ 0) :
    attrSize type items = (attrBuilder nodeID type items buffer).1 ∧
    (attrBuilder nodeID type items buffer).1 = packetBytes type items % 65536 ∧
    (packetBytes type items < 65536 → packetBytes type items ≤ buffer.length →
      (attrBuilder nodeID type items buffer).1 = packetBytes type items ∧
      ∃ packet, packet.length = packetBytes type items ∧
        (attrBuilder nodeID type items buffer).2
          = packet ++ buffer.drop (packetBytes type items)) := by
  have h1 : (attrBuilder nodeID type items buffer).1 = packetBytes type items % 65536 := by
    rw [attrBuilder_fst] at h ⊢
    cases type <;> simp [packetBytes] at h ⊢
    · simp [h]
    · simp [h]
    · simp [h]
  refine ⟨?_, h1, ?_⟩
  · rw [h1, attrSize_eq, packetBytes]
  · intro hsmall hfit
    refine ⟨by rw [h1, Nat.mod_eq_of_lt hsmall], ?_⟩
    rw [attrBuilder_fst] at h
    cases type with
    | NODE_REGISTER =>
      have hp : packetBytes NODE_REGISTER items = 4 + itemsBytes items := by simp [packetBytes]
      rw [hp] at hsmall hfit ⊢
      rw [attrBuilder_layout_node_register nodeID items buffer hfit hsmall]
      exact ⟨_, wirePacket_length _ _, rfl⟩
    | ATTR_POST_RESPONSE => simp at h
    | ATTR_REGISTER =>
      have hp : packetBytes ATTR_REGISTER items = 7 + itemsBytes items := by simp [packetBytes]
      have hc : items.length = 4 ∧ nodeID ≠ 0 := by
        by_contra hc
        simp only [not_and_or, not_not] at hc
        simp [hc] at h
      rw [hp] at hsmall hfit ⊢
      rw [attrBuilder_layout nodeID _ items buffer hc.2 (Or.inl ⟨Or.inl rfl, hc.1⟩) hfit]
      refine ⟨_, ?_, rfl⟩
      rw [wirePacket_length]
      simp [itemsBytes, nodeIDItem, getTypeSize]
      omega
    | ATTR_POST =>
      have hp : packetBytes ATTR_POST items = 7 + itemsBytes items := by simp [packetBytes]
      have hc : items.length = 4 ∧ nodeID ≠ 0 := by
        by_contra hc
        simp only [not_and_or, not_not] at hc
        simp [hc] at h
      rw [hp] at hsmall hfit ⊢
      rw [attrBuilder_layout nodeID _ items buffer hc.2 (Or.inl ⟨Or.inr rfl, hc.1⟩) hfit]
      refine ⟨_, ?_, rfl⟩
      rw [wirePacket_length]
      simp [itemsBytes, nodeIDItem, getTypeSize]
      omega
    | ATTR_FAILURE =>
      have hp : packetBytes ATTR_FAILURE items = 7 + itemsBytes items := by simp [packetBytes]
      have hc : items.length = 3 ∧ nodeID ≠ 0 := by
        by_contra hc
        simp only [not_and_or, not_not] at hc
        simp [hc] at h
      rw [hp] at hsmall hfit ⊢
      rw [attrBuilder_layout nodeID _ items buffer hc.2 (Or.inr ⟨rfl, hc.1⟩) hfit]
      refine ⟨_, ?_, rfl⟩
      rw [wirePacket_length]
      simp [itemsBytes, nodeIDItem, getTypeSize]
      omega

/-- Witness for C1: the `ATTR_POST` packet of scenario B. -/
theorem attrSize_eq_attrBuilder_witness :
    (attrBuilder 7 ATTR_POST (attrIdentAsDataItems ⟨1, 2, 3⟩ ++ [⟨USHORT, [42, 0]⟩])
        (stackBuffer 19)).1 ≠ 0 ∧
    attrSize ATTR_POST (attrIdentAsDataItems ⟨1, 2, 3⟩ ++ [⟨USHORT, [42, 0]⟩])
      = (attrBuilder 7 ATTR_POST (attrIdentAsDataItems ⟨1, 2, 3⟩ ++ [⟨USHORT, [42, 0]⟩])
          (stackBuffer 19)).1 :=
  ⟨by decide,
    (attrSize_eq_attrBuilder 7 ATTR_POST (attrIdentAsDataItems ⟨1, 2, 3⟩ ++ [⟨USHORT, [42, 0]⟩])
      (stackBuffer 19) (by decide)).1⟩

/-- Claim C2, at the failing input.  For `NODE_REGISTER` with one `USHORT`
item, `attrBuilder` succeeds and serialises the item after the header, but the
header it writes has `dataCount` 0, so the decode loop run on the built packet
yields no item: the caller's slot is left as it was. -/
theorem node_register_items_not_decoded :
    attrBuilder 7 NODE_REGISTER [⟨USHORT, [1, 0]⟩] (stackBuffer 7) = (7, [0, 0, 0, 0, 5, 1, 0]) ∧
    decodeItems (headerOf (attrBuilder 7 NODE_REGISTER [⟨USHORT, [1, 0]⟩] (stackBuffer 7)).2)
        ((attrBuilder 7 NODE_REGISTER [⟨USHORT, [1, 0]⟩] (stackBuffer 7)).2.drop 4) [default]
      = [default] ∧
    (decodeItems (headerOf (attrBuilder 7 NODE_REGISTER [⟨USHORT, [1, 0]⟩] (stackBuffer 7)).2)
        ((attrBuilder 7 NODE_REGISTER [⟨USHORT, [1, 0]⟩] (stackBuffer 7)).2.drop 4)
        [default]).map itemContent
      ≠ [itemContent ⟨USHORT, [1, 0]⟩] := by
  decide

/-- Claim C3, at the failing input.  For `NODE_REGISTER` with one `USHORT`
item, `attrBuilder` returns 7 and writes the three bytes of the item after the
header, while the header it writes has `dataSize` 0 and `dataCount` 0. -/
theorem node_register_items_header :
    (attrBuilder 7 NODE_REGISTER [⟨USHORT, [1, 0]⟩] (stackBuffer 7)).1 = 7 ∧
    (attrBuilder 7 NODE_REGISTER [⟨USHORT, [1, 0]⟩] (stackBuffer 7)).2.drop 4 = [5, 1, 0] ∧
    headerOf (attrBuilder 7 NODE_REGISTER [⟨USHORT, [1, 0]⟩] (stackBuffer 7)).2
      = ⟨0, SUCCESS, 0⟩ := by
  decide

/-- Claim C4.  For `ATTR_REGISTER` and `ATTR_POST`, `attrBuilder` returns 0
exactly when the NodeID is 0 or the item count is not 4; for `ATTR_FAILURE`,
exactly when the NodeID is 0 or the item count is not 3.  In every other case
the result is a non-zero byte count. -/
theorem attrBuilder_zero_iff (nodeID : Nat) (items : List DataItem) (buffer : List Nat) :
    ((attrBuilder nodeID ATTR_REGISTER items buffer).1 = 0 ↔ nodeID = 0 ∨ items.length ≠ 4) ∧
    ((attrBuilder nodeID ATTR_POST items buffer).1 = 0 ↔ nodeID = 0 ∨ items.length ≠ 4) ∧
    ((attrBuilder nodeID ATTR_FAILURE items buffer).1 = 0 ↔ nodeID = 0 ∨ items.length ≠ 3) := by
  have hle := itemsBytes_le items
  simp only [attrBuilder_fst]
  refine ⟨?_, ?_, ?_⟩
  · by_cases h1 : items.length = 4 <;> by_cases h2 : nodeID = 0 <;> simp [h1, h2]
    omega
  · by_cases h1 : items.length = 4 <;> by_cases h2 : nodeID = 0 <;> simp [h1, h2]
    omega
  · by_cases h1 : items.length = 3 <;> by_cases h2 : nodeID = 0 <;> simp [h1, h2]
    omega

/-- Claim C5, at the failing input.  The driver with NodeID 7 and the attribute
(1, 2, 3), whose reader gives 42, handles an attribute-request for (1, 2, 3).
The packet it sends carries the items 7, 7, 1, 2, 42: the request's items 0 to
2 instead of its items 1 to 3.  It is not the packet with items 7, 1, 2, 3,
42. -/
theorem request_reply_items_shifted :
    ((scenarioDriver 7).parseEMonCMSPacket ⟨12, SUCCESS, 4⟩ 80 (requestBuffer 7 1 2 3)
        (List.replicate 4 default)).2.trace
      = [Effect.reader 0 ⟨1, 2, 3⟩,
          Effect.networkSender 112
            (wirePacket ⟨15, SUCCESS, 5⟩
              [⟨USHORT, [7, 0]⟩, ⟨USHORT, [7, 0]⟩, ⟨USHORT, [1, 0]⟩, ⟨USHORT, [2, 0]⟩,
                ⟨USHORT, [42, 0]⟩]) 19] ∧
    wirePacket ⟨15, SUCCESS, 5⟩
        [⟨USHORT, [7, 0]⟩, ⟨USHORT, [7, 0]⟩, ⟨USHORT, [1, 0]⟩, ⟨USHORT, [2, 0]⟩, ⟨USHORT, [42, 0]⟩]
      ≠ wirePacket ⟨15, SUCCESS, 5⟩
        [⟨USHORT, [7, 0]⟩, ⟨USHORT, [1, 0]⟩, ⟨USHORT, [2, 0]⟩, ⟨USHORT, [3, 0]⟩, ⟨USHORT, [42, 0]⟩] := by
  decide

/-- Claim C7.  Handling a register-ack ('r') that carries at least one item
sets the NodeID to the 16 bit value in the value bytes of item 0, invokes the
node-registered notification once with the new NodeID when one was supplied,
sends nothing, leaves the registry and every other member as they were, and
returns true. -/
theorem parse_register_ack (s : EMonCMS) (header : HeaderInfo) (buffer : List Nat)
    (items : List DataItem) (hc : 0 < header.dataCount) (hi : 0 < items.length) :
    s.parseEMonCMSPacket header 114 buffer items
      = (true, { s with
          nodeID := readU16 (buffer.drop 1)
          trace := s.trace ++
            (if s.nodeRegistered then [Effect.nodeRegistered (readU16 (buffer.drop 1))] else []) }) := by
  unfold parseEMonCMSPacket
  simp only [isEMonCMSPacket, decodeItems_head header buffer items hc hi]
  by_cases h : s.nodeRegistered <;> simp [h]

/-- Witness for C7: scenario A, a register-ack that carries NodeID 7. -/
theorem parse_register_ack_witness :
    0 < (HeaderInfo.mk 3 SUCCESS 1).dataCount ∧
    (scenarioDriver 0).parseEMonCMSPacket ⟨3, SUCCESS, 1⟩ 114 [5, 7, 0] [default]
      = (true, { scenarioDriver 0 with nodeID := 7, trace := [Effect.nodeRegistered 7] }) :=
  ⟨by decide,
    parse_register_ack (scenarioDriver 0) ⟨3, SUCCESS, 1⟩ [5, 7, 0] [default]
      (by decide) (by decide)⟩

/-- Claim C8, counterexample.  A driver whose NodeID is 7 handles a
register-ack that carries 9 and its NodeID becomes 9; a register-ack that
carries 0 even returns the NodeID to 0. -/
theorem nodeID_overwritten_by_register_ack :
    (scenarioDriver 7).nodeID = 7 ∧
    ((scenarioDriver 7).run (.parseEMonCMSPacket ⟨3, SUCCESS, 1⟩ 114 [5, 9, 0] [default])).nodeID = 9 ∧
    ((scenarioDriver 7).run (.parseEMonCMSPacket ⟨3, SUCCESS, 1⟩ 114 [5, 0, 0] [default])).nodeID = 0 := by
  decide

/-- Claim C8, as amended.  The NodeID changes only when a register-ack is
handled: every operation other than `parseEMonCMSPacket` with type 'r' (that is
`parseEMonCMSPacket` with any other type, `registerNode`, `postAttribute`,
`attrBuilder` and `attrSender`) leaves the NodeID as it was. -/
theorem nodeID_changes_only_on_register_ack (s : EMonCMS) (op : Operation)
    (h : op.isRegisterAck = false) : (s.run op).nodeID = s.nodeID := by
  cases op with
  | parseEMonCMSPacket header type buffer items =>
    exact parse_nodeID s header type buffer items (by simpa [Operation.isRegisterAck] using h)
  | registerNode millis0 millis1 => exact (registerNode_keeps s millis0 millis1).1
  | postAttribute ident => exact (postAttribute_keeps s ident).1
  | attrBuilder type items buffer => rfl
  | attrSender type items => exact (attrSender_keeps s type items).1

/-- Witness for C8 as amended: an attribute-register-ack keeps the NodeID. -/
theorem nodeID_changes_only_on_register_ack_witness :
    (Operation.parseEMonCMSPacket ⟨12, SUCCESS, 4⟩ 97 (requestBuffer 7 1 2 3)
        (List.replicate 4 default)).isRegisterAck = false ∧
    ((scenarioDriver 7).run (.parseEMonCMSPacket ⟨12, SUCCESS, 4⟩ 97 (requestBuffer 7 1 2 3)
        (List.replicate 4 default))).nodeID = (scenarioDriver 7).nodeID :=
  ⟨by decide,
    nodeID_changes_only_on_register_ack (scenarioDriver 7)
      (.parseEMonCMSPacket ⟨12, SUCCESS, 4⟩ 97 (requestBuffer 7 1 2 3)
        (List.replicate 4 default)) (by decide)⟩

/-- Claim C9.  Handling an attribute-register-ack ('a') whose items 1 to 3
carry the identity `ident`.  If `getAttribute` resolves `ident` to entry `k`,
that entry has identity `ident`, it is the one entry that changes, its
`registered` flag is set, the attribute-registered notification is invoked once
with `ident` when one was supplied, nothing is sent and the result is true.  If
`ident` does not resolve, the driver is unchanged, no notification is invoked
and the result is still true. -/
theorem parse_attr_register_ack (s : EMonCMS) (header : HeaderInfo) (buffer : List Nat)
    (items : List DataItem) (ident : AttributeIdentifier)
    (hI : identOfItems (decodeItems header buffer items) = ident) :
    (∀ k, s.getAttribute (some ident) = some k →
      ∃ attrVal, s.attrValues.get? k = some attrVal ∧ attrVal.attr = ident ∧
        s.parseEMonCMSPacket header 97 buffer items
          = (true, { s with
              attrValues := s.attrValues.set k { attrVal with registered := true }
              trace := s.trace ++
                (if s.attrRegistered then [Effect.attrRegistered ident] else []) })) ∧
    (s.getAttribute (some ident) = none →
      s.parseEMonCMSPacket header 97 buffer items = (true, s)) := by
  constructor
  · intro k hk
    obtain ⟨av, hget, hattr⟩ := getAttribute_some s ident k hk
    refine ⟨av, hget, hattr, ?_⟩
    unfold parseEMonCMSPacket
    simp only [isEMonCMSPacket, hI, hk, markRegistered, hget]
    by_cases h : s.attrRegistered <;> simp [h]
  · intro hk
    unfold parseEMonCMSPacket
    simp [isEMonCMSPacket, hI, hk]

/-- Witness for C9: scenario B, the attribute-register-ack for (1, 2, 3). -/
theorem parse_attr_register_ack_witness :
    identOfItems (decodeItems ⟨12, SUCCESS, 4⟩ (requestBuffer 7 1 2 3)
        (List.replicate 4 default)) = ⟨1, 2, 3⟩ ∧
    (scenarioDriver 7).getAttribute (some ⟨1, 2, 3⟩) = some 0 ∧
    ∃ attrVal, (scenarioDriver 7).attrValues.get? 0 = some attrVal ∧ attrVal.attr = ⟨1, 2, 3⟩ ∧
      (scenarioDriver 7).parseEMonCMSPacket ⟨12, SUCCESS, 4⟩ 97 (requestBuffer 7 1 2 3)
          (List.replicate 4 default)
        = (true, { scenarioDriver 7 with
            attrValues := (scenarioDriver 7).attrValues.set 0 { attrVal with registered := true }
            trace := (scenarioDriver 7).trace ++
              (if (scenarioDriver 7).attrRegistered then
                [Effect.attrRegistered ⟨1, 2, 3⟩] else []) }) :=
  ⟨by decide, by decide,
    (parse_attr_register_ack (scenarioDriver 7) ⟨12, SUCCESS, 4⟩ (requestBuffer 7 1 2 3)
      (List.replicate 4 default) ⟨1, 2, 3⟩ (by decide)).1 0 (by decide)⟩

/-- Claim C10.  Every operation other than `parseEMonCMSPacket` with type 'a'
leaves the registry exactly as it was, and every operation, that one included,
keeps every entry's identity and reader and never clears a `registered` flag
that was set. -/
theorem registered_changes_only_on_attr_ack (s : EMonCMS) (op : Operation) :
    (op.isAttrRegisterAck = false → (s.run op).attrValues = s.attrValues) ∧
    flagsPreserved s.attrValues (s.run op).attrValues := by
  cases op with
  | parseEMonCMSPacket header type buffer items =>
    refine ⟨fun h => parse_attrValues s header type buffer items
      (by simpa [Operation.isAttrRegisterAck] using h), ?_⟩
    rcases parse_attrValues_cases s header type buffer items with h | ⟨k, h⟩
    · simp only [run, h]
      exact flagsPreserved_refl _
    · simp only [run, h]
      exact flagsPreserved_markRegistered _ k
  | registerNode millis0 millis1 =>
    have h : (s.run (.registerNode millis0 millis1)).attrValues = s.attrValues :=
      (registerNode_keeps s millis0 millis1).2
    exact ⟨fun _ => h, by rw [h]; exact flagsPreserved_refl _⟩
  | postAttribute ident =>
    have h : (s.run (.postAttribute ident)).attrValues = s.attrValues :=
      (postAttribute_keeps s ident).2
    exact ⟨fun _ => h, by rw [h]; exact flagsPreserved_refl _⟩
  | attrBuilder type items buffer => exact ⟨fun _ => rfl, flagsPreserved_refl _⟩
  | attrSender type items =>
    have h : (s.run (.attrSender type items)).attrValues = s.attrValues :=
      (attrSender_keeps s type items).2
    exact ⟨fun _ => h, by rw [h]; exact flagsPreserved_refl _⟩

/-- Witness for C10: a registration pass keeps the registry. -/
theorem registered_changes_only_on_attr_ack_witness :
    (Operation.registerNode 6000 6001).isAttrRegisterAck = false ∧
    ((scenarioDriver 7).run (.registerNode 6000 6001)).attrValues
      = (scenarioDriver 7).attrValues :=
  ⟨by decide,
    (registered_changes_only_on_attr_ack (scenarioDriver 7) (.registerNode 6000 6001)).1
      (by decide)⟩

/-! ## Claims C11 to C20 -/

theorem getAttributeLoop_none (ident : AttributeIdentifier) (l : List AttributeValue) :
    ∀ (i : Nat), getAttributeLoop (some ident) l i = none ↔ ∀ attrVal ∈ l, attrVal.attr ≠ ident := by
  induction l with
  | nil => intro i; simp [getAttributeLoop]
  | cons v rest ih =>
    intro i
    simp only [getAttributeLoop, List.mem_cons, forall_eq_or_imp]
    split_ifs with hc
    · have hv : v.attr = ident := (compareAttribute_eq_zero _ _).mp hc
      simp [hv]
    · have hv : v.attr ≠ ident := fun h => hc ((compareAttribute_eq_zero _ _).mpr h)
      simp [hv, ih (i + 1)]

theorem getAttributeLoop_first (ident : AttributeIdentifier) (l : List AttributeValue) :
    ∀ (i k : Nat), getAttributeLoop (some ident) l i = some k →
      ∀ (j : Nat) (attrVal : AttributeValue), j < k - i → l.get? j = some attrVal →
        attrVal.attr ≠ ident := by
  induction l with
  | nil => intro i k h; simp [getAttributeLoop] at h
  | cons v rest ih =>
    intro i k h j attrVal hj hget
    simp only [getAttributeLoop] at h
    split_ifs at h with hc
    · have hk : i = k := by simpa using h
      omega
    · have hv : v.attr ≠ ident := fun h => hc ((compareAttribute_eq_zero _ _).mpr h)
      cases j with
      | zero =>
        have : v = attrVal := by simpa using hget
        exact this ▸ hv
      | succ j =>
        have hle := (getAttributeLoop_some ident rest (i + 1) k h).1
        exact ih (i + 1) k h j attrVal (by omega) (by simpa using hget)

/-- Claim C11.  `getAttribute` is reflexive and exact.  When some entry of the
registry has identity `ident`, `getAttribute` returns an entry whose identity
is `ident`, and it is the first such entry in registry order.  When no entry
has identity `ident` it returns `NULL`.  Whatever entry it returns for `ident`
agrees with `ident` on groupID, attributeID and attributeNumber, so an entry is
never returned for an identity that differs from its own in a field. -/
theorem getAttribute_reflexive_exact (s : EMonCMS) (ident : AttributeIdentifier) :
    ((∃ attrVal ∈ s.attrValues, attrVal.attr = ident) →
      ∃ k attrVal, s.getAttribute (some ident) = some k ∧
        s.attrValues.get? k = some attrVal ∧ attrVal.attr = ident ∧
        ∀ j earlier, j < k → s.attrValues.get? j = some earlier → earlier.attr ≠ ident) ∧
    ((∀ attrVal ∈ s.attrValues, attrVal.attr ≠ ident) → s.getAttribute (some ident) = none) ∧
    (∀ k attrVal, s.getAttribute (some ident) = some k → s.attrValues.get? k = some attrVal →
      attrVal.attr.groupID = ident.groupID ∧ attrVal.attr.attributeID = ident.attributeID ∧
        attrVal.attr.attributeNumber = ident.attributeNumber) := by
  refine ⟨?_, ?_, ?_⟩
  · intro hex
    cases hk : s.getAttribute (some ident) with
    | none =>
      obtain ⟨attrVal, hmem, hattr⟩ := hex
      exact absurd hattr ((getAttributeLoop_none ident s.attrValues 0).mp hk attrVal hmem)
    | some k =>
      obtain ⟨attrVal, hget, hattr⟩ := getAttribute_some s ident k hk
      refine ⟨k, attrVal, rfl, hget, hattr, ?_⟩
      intro j earlier hj hgetj
      exact getAttributeLoop_first ident s.attrValues 0 k hk j earlier (by omega) hgetj
  · intro hall
    exact (getAttributeLoop_none ident s.attrValues 0).mpr hall
  · intro k attrVal hk hget
    obtain ⟨attrVal2, hget2, hattr⟩ := getAttribute_some s ident k hk
    have : attrVal = attrVal2 := by
      rw [hget] at hget2
      exact Option.some.inj hget2
    subst this
    rw [hattr]
    exact ⟨rfl, rfl, rfl⟩

/-- Witness for C11: the scenario registry resolves (1, 2, 3). -/
theorem getAttribute_reflexive_exact_witness :
    ∃ k attrVal, (scenarioDriver 7).getAttribute (some ⟨1, 2, 3⟩) = some k ∧
      (scenarioDriver 7).attrValues.get? k = some attrVal ∧ attrVal.attr = ⟨1, 2, 3⟩ ∧
      ∀ j earlier, j < k → (scenarioDriver 7).attrValues.get? j = some earlier →
        earlier.attr ≠ ⟨1, 2, 3⟩ :=
  (getAttribute_reflexive_exact (scenarioDriver 7) ⟨1, 2, 3⟩).1
    ⟨⟨⟨1, 2, 3⟩, scenarioReader, false⟩, by simp [scenarioDriver], rfl⟩

/-- Claim C20.  `isEMonCMSPacket` is true exactly for 'r', 'a', 'p' and 'P'.
For every other type `parseEMonCMSPacket` returns false with the driver
unchanged (nothing sent, no notification, NodeID and registry as before) and
with the caller's item array untouched, so nothing was decoded.  For a post-ack
('p') it returns true with the driver unchanged. -/
theorem packet_classification (s : EMonCMS) (header : HeaderInfo) (type : Nat)
    (buffer : List Nat) (items : List DataItem) :
    (isEMonCMSPacket type = true ↔ type = 114 ∨ type = 97 ∨ type = 112 ∨ type = 80) ∧
    (isEMonCMSPacket type = false →
      s.parseEMonCMSPacket header type buffer items = (false, s) ∧
      parseEMonCMSPacketItems header type buffer items = items) ∧
    s.parseEMonCMSPacket header 112 buffer items = (true, s) := by
  refine ⟨?_, ?_, ?_⟩
  · simp only [isEMonCMSPacket, Bool.or_eq_true, decide_eq_true_eq]
    tauto
  · intro h
    simp [parseEMonCMSPacket, parseEMonCMSPacketItems, h]
  · simp [parseEMonCMSPacket, isEMonCMSPacket]

/-- Witness for C20: type 'x' is not a protocol packet. -/
theorem packet_classification_witness :
    isEMonCMSPacket 120 = false ∧
    (scenarioDriver 7).parseEMonCMSPacket ⟨12, SUCCESS, 4⟩ 120 (requestBuffer 7 1 2 3)
        (List.replicate 4 default) = (false, scenarioDriver 7) :=
  ⟨by decide,
    ((packet_classification (scenarioDriver 7) ⟨12, SUCCESS, 4⟩ 120 (requestBuffer 7 1 2 3)
      (List.replicate 4 default)).2.1 (by decide)).1⟩

theorem registerNode_test (s : EMonCMS) (millis0 millis1 : Nat) :
    s.registerNode millis0 millis1 =
      if elapsedMillis millis0 s.lastRegisterRequest > REGISTERREQUESTTIMEOUT then
        if s.nodeID = 0 then
          { (attrSender s NODE_REGISTER []).2 with lastRegisterRequest := millis1 % 4294967296 }
        else
          { (List.range s.attrValues.length).foldl registerAttribute s with
            lastRegisterRequest := millis1 % 4294967296 }
      else s := rfl

theorem elapsedMillis_mod (millis last : Nat) :
    elapsedMillis millis (last % 4294967296) = elapsedMillis millis last := by
  simp [elapsedMillis]

theorem attrSender_node_register (s : EMonCMS) :
    attrSender s NODE_REGISTER []
      = (s.networkSender 82 [0, 0, 0, 0] 4,
          { s with trace := s.trace ++ [Effect.networkSender 82 [0, 0, 0, 0] 4] }) := rfl

theorem attrSender_node_scoped (s : EMonCMS) (type : RequestType) (items : List DataItem)
    (hn : s.nodeID ≠ 0)
    (ht : (type = ATTR_REGISTER ∨ type = ATTR_POST) ∧ items.length = 4 ∨
      type = ATTR_FAILURE ∧ items.length = 3) :
    attrSender s type items
      = (s.networkSender type.code
            (wirePacket ⟨3 + itemsBytes items, if type = ATTR_FAILURE then FAILURE else SUCCESS,
              1 + items.length⟩ (nodeIDItem s.nodeID :: items)) (7 + itemsBytes items),
          { s with trace := s.trace ++
            [Effect.networkSender type.code
              (wirePacket ⟨3 + itemsBytes items, if type = ATTR_FAILURE then FAILURE else SUCCESS,
                1 + items.length⟩ (nodeIDItem s.nodeID :: items)) (7 + itemsBytes items)] }) := by
  have hle := itemsBytes_le items
  have hsize : attrSize type items = 7 + itemsBytes items := by
    rw [attrSize_eq]
    rcases ht with ⟨h | h, hl⟩ | ⟨h, hl⟩ <;> subst h <;> simp <;> omega
  have hb := attrBuilder_layout s.nodeID type items (stackBuffer (7 + itemsBytes items)) hn ht
    (by rw [stackBuffer_length])
  have hdrop : (stackBuffer (7 + itemsBytes items)).drop (7 + itemsBytes items) = [] := by
    simp [stackBuffer]
  rw [hdrop, List.append_nil] at hb
  unfold attrSender
  simp only [hsize, hb]
  simp

theorem attrSender_unassigned (s : EMonCMS) (type : RequestType) (items : List DataItem)
    (hn : s.nodeID = 0) (ht : type = ATTR_REGISTER ∨ type = ATTR_POST ∨ type = ATTR_FAILURE) :
    attrSender s type items = (0, s) := by
  have hb : (attrBuilder s.nodeID type items (stackBuffer (attrSize type items))).1 = 0 := by
    rw [attrBuilder_fst]
    rcases ht with h | h | h <;> subst h <;> simp [hn]
  unfold attrSender
  simp only [hb]
  by_cases h0 : attrSize type items = 0
  · simp [h0]
  · have : (0 : Nat) ≠ attrSize type items := fun h => h0 h.symm
    simp [h0, this]

/-- Claim C12.  Debounce of the registration driver.  When `registerNode` runs
while the clock reading minus `lastRegisterRequest` (32 bit unsigned) is below
`REGISTERREQUESTTIMEOUT`, the driver is unchanged: nothing is sent, no reader
is called, and NodeID, registry and `lastRegisterRequest` are as before.
Consequently, after a run that made an attempt and stored the clock reading
`millis1`, a second run at a reading `later` with `later - millis1` below the
timeout leaves the driver as the first run left it, so it sends nothing
more. -/
theorem registerNode_debounce (s : EMonCMS) (millis0 millis1 : Nat) :
    (elapsedMillis millis0 s.lastRegisterRequest < REGISTERREQUESTTIMEOUT →
      s.registerNode millis0 millis1 = s) ∧
    (∀ later millis2, REGISTERREQUESTTIMEOUT < elapsedMillis millis0 s.lastRegisterRequest →
      elapsedMillis later millis1 < REGISTERREQUESTTIMEOUT →
      (s.registerNode millis0 millis1).registerNode later millis2
          = s.registerNode millis0 millis1 ∧
        sentPackets ((s.registerNode millis0 millis1).registerNode later millis2).trace
          = sentPackets (s.registerNode millis0 millis1).trace) := by
  have first : ∀ (u : EMonCMS) (a b : Nat),
      elapsedMillis a u.lastRegisterRequest < REGISTERREQUESTTIMEOUT → u.registerNode a b = u := by
    intro u a b h
    rw [registerNode_test, if_neg (by omega)]
  refine ⟨first s millis0 millis1, ?_⟩
  intro later millis2 hattempt hlater
  have hlast : (s.registerNode millis0 millis1).lastRegisterRequest = millis1 % 4294967296 := by
    rw [registerNode_test, if_pos hattempt]
    split_ifs <;> rfl
  have h := first (s.registerNode millis0 millis1) later millis2
    (by rw [hlast, elapsedMillis_mod]; exact hlater)
  exact ⟨h, by rw [h]⟩

/-- Witness for C12: the scenario driver, last attempt at 6001, run again at
7000. -/
theorem registerNode_debounce_witness :
    elapsedMillis 7000 ((scenarioDriver 7).registerNode 6000 6001).lastRegisterRequest
        < REGISTERREQUESTTIMEOUT ∧
    ((scenarioDriver 7).registerNode 6000 6001).registerNode 7000 7001
      = (scenarioDriver 7).registerNode 6000 6001 :=
  ⟨by decide,
    (registerNode_debounce ((scenarioDriver 7).registerNode 6000 6001) 7000 7001).1
      (by decide)⟩

/-- Claim C14.  Registration driver with the NodeID unassigned.  When the
timeout has elapsed and NodeID is 0, `registerNode` hands the outbound send
exactly one packet, of type `NODE_REGISTER` ('R'): the 4 byte header with
`dataSize` 0, status `SUCCESS`, `dataCount` 0, and no items.  It calls no
reader and sends nothing else, and stores the clock reading in
`lastRegisterRequest` whatever the send returned.  NodeID and registry are
unchanged. -/
theorem registerNode_unassigned (s : EMonCMS) (millis0 millis1 : Nat)
    (ht : REGISTERREQUESTTIMEOUT < elapsedMillis millis0 s.lastRegisterRequest)
    (hn : s.nodeID = 0) :
    s.registerNode millis0 millis1
      = { s with
          lastRegisterRequest := millis1 % 4294967296
          trace := s.trace ++ [Effect.networkSender NODE_REGISTER.code [0, 0, 0, 0] 4] } ∧
    [0, 0, 0, 0] = wirePacket ⟨0, SUCCESS, 0⟩ [] ∧
    headerOf [0, 0, 0, 0] = ⟨0, SUCCESS, 0⟩ ∧
    NODE_REGISTER.code = 82 ∧
    (millis1 < 4294967296 → (s.registerNode millis0 millis1).lastRegisterRequest = millis1) := by
  have h : s.registerNode millis0 millis1
      = { s with
          lastRegisterRequest := millis1 % 4294967296
          trace := s.trace ++ [Effect.networkSender NODE_REGISTER.code [0, 0, 0, 0] 4] } := by
    rw [registerNode_test, if_pos ht, if_pos hn, attrSender_node_register]
    rfl
  refine ⟨h, by decide, by decide, rfl, ?_⟩
  intro hm
  rw [h]
  exact Nat.mod_eq_of_lt hm

/-- Witness for C14: scenario A after the timeout. -/
theorem registerNode_unassigned_witness :
    REGISTERREQUESTTIMEOUT < elapsedMillis 6000 (scenarioDriver 0).lastRegisterRequest ∧
    (scenarioDriver 0).registerNode 6000 6001
      = { scenarioDriver 0 with
          lastRegisterRequest := 6001 % 4294967296
          trace := (scenarioDriver 0).trace ++
            [Effect.networkSender NODE_REGISTER.code [0, 0, 0, 0] 4] } :=
  ⟨by decide, (registerNode_unassigned (scenarioDriver 0) 6000 6001 (by decide) rfl).1⟩

/-- Claim C15, counterexample.  The freshly constructed driver of scenario A
(NodeID 0, one unregistered attribute) runs `registerNode` for the first time
at clock reading 1000: nothing is handed to the outbound send. -/
theorem first_registerNode_before_timeout_sends_nothing :
    ((new [⟨⟨1, 2, 3⟩, scenarioReader, false⟩] (fun _ _ length => length) true true 0).registerNode
        1000 1000).trace = [] ∧
    sentPackets ((new [⟨⟨1, 2, 3⟩, scenarioReader, false⟩] (fun _ _ length => length) true true
        0).registerNode 1000 1000).trace = [] := by
  decide

/-- Claim C15, as amended.  On a freshly constructed driver with NodeID 0 the
first run of `registerNode` sends a `NODE_REGISTER` packet and nothing else
when the clock reading is above `REGISTERREQUESTTIMEOUT`; at a reading of at
most `REGISTERREQUESTTIMEOUT` it sends nothing and leaves the driver as
constructed. -/
theorem first_registerNode (values : List AttributeValue) (sender : Nat → List Nat → Nat → Nat)
    (attrRegistered nodeRegistered : Bool) (millis0 millis1 : Nat) :
    (REGISTERREQUESTTIMEOUT < millis0 % 4294967296 →
      ((new values sender attrRegistered nodeRegistered 0).registerNode millis0 millis1).trace
        = [Effect.networkSender NODE_REGISTER.code [0, 0, 0, 0] 4]) ∧
    (millis0 % 4294967296 ≤ REGISTERREQUESTTIMEOUT →
      (new values sender attrRegistered nodeRegistered 0).registerNode millis0 millis1
        = new values sender attrRegistered nodeRegistered 0) := by
  have he : elapsedMillis millis0 (new values sender attrRegistered nodeRegistered 0).lastRegisterRequest
      = millis0 % 4294967296 := by
    simp only [elapsedMillis, new]
    omega
  constructor
  · intro h
    have hn : (new values sender attrRegistered nodeRegistered 0).nodeID = 0 := rfl
    rw [registerNode_test, if_pos (by rw [he]; exact h), if_pos hn, attrSender_node_register]
    rfl
  · intro h
    rw [registerNode_test, if_neg (by rw [he]; omega)]

/-- Witness for C15 as amended: scenario A at clock reading 6000. -/
theorem first_registerNode_witness :
    REGISTERREQUESTTIMEOUT < 6000 % 4294967296 ∧
    ((new [⟨⟨1, 2, 3⟩, scenarioReader, false⟩] (fun _ _ length => length) true true 0).registerNode
        6000 6001).trace = [Effect.networkSender NODE_REGISTER.code [0, 0, 0, 0] 4] :=
  ⟨by decide,
    (first_registerNode [⟨⟨1, 2, 3⟩, scenarioReader, false⟩] (fun _ _ length => length) true true
      6000 6001).1 (by decide)⟩

theorem sentPackets_append (a b : List Effect) :
    sentPackets (a ++ b) = sentPackets a ++ sentPackets b := by
  induction a with
  | nil => rfl
  | cons e rest ih => cases e <;> simp [sentPackets, ih]

theorem itemsBytes_attribute (attr : AttributeIdentifier) (item : DataItem) :
    itemsBytes (attrIdentAsDataItems attr ++ [item]) = 10 + getTypeSize item.type := by
  simp [itemsBytes, attrIdentAsDataItems, getTypeSize]
  omega

theorem attrSender_attribute (s : EMonCMS) (type : RequestType) (attr : AttributeIdentifier)
    (item : DataItem) (hn : s.nodeID ≠ 0) (ht : type = ATTR_REGISTER ∨ type = ATTR_POST) :
    attrSender s type (attrIdentAsDataItems attr ++ [item])
      = (s.networkSender type.code (attributePacket s.nodeID attr item)
            (17 + getTypeSize item.type),
          { s with trace := s.trace ++
            [Effect.networkSender type.code (attributePacket s.nodeID attr item)
              (17 + getTypeSize item.type)] }) := by
  have h := attrSender_node_scoped s type (attrIdentAsDataItems attr ++ [item]) hn
    (Or.inl ⟨ht, rfl⟩)
  have hne : type ≠ ATTR_FAILURE := by
    rcases ht with h | h <;> subst h <;> decide
  have hlen : 1 + (attrIdentAsDataItems attr ++ [item]).length = 5 := rfl
  have h17 : 7 + itemsBytes (attrIdentAsDataItems attr ++ [item]) = 17 + getTypeSize item.type := by
    rw [itemsBytes_attribute]
    omega
  rw [h]
  simp only [if_neg hne, hlen, h17]
  rfl

theorem registerAttribute_at (s : EMonCMS) (pre rest : List AttributeValue)
    (attrVal : AttributeValue) (hs : s.attrValues = pre ++ attrVal :: rest) (hn : s.nodeID ≠ 0) :
    registerAttribute s pre.length
      = { s with trace := s.trace ++ registrationCalls s.nodeID [attrVal] pre.length } := by
  have hget : s.attrValues.get? pre.length = some attrVal := by
    rw [hs]
    clear hs
    induction pre with
    | nil => rfl
    | cons v pre ih => simpa using ih
  unfold registerAttribute
  rw [hget]
  simp only [registrationCalls, List.append_nil]
  by_cases hr : attrVal.registered = true
  · simp [hr]
  · simp only [hr]
    cases hread : attrVal.reader attrVal.attr with
    | none => simp
    | some item =>
      simp only [Bool.not_false, if_true, Bool.false_eq_true, if_false]
      have := attrSender_attribute { s with trace := s.trace ++ [Effect.reader pre.length attrVal.attr] }
        ATTR_REGISTER attrVal.attr item hn (Or.inl rfl)
      rw [this]
      simp [RequestType.code]

theorem registrationCalls_cons (nodeID : Nat) (attrVal : AttributeValue)
    (rest : List AttributeValue) (i : Nat) :
    registrationCalls nodeID (attrVal :: rest) i
      = registrationCalls nodeID [attrVal] i ++ registrationCalls nodeID rest (i + 1) := by
  simp [registrationCalls]

theorem foldl_registerAttribute (rest : List AttributeValue) :
    ∀ (pre : List AttributeValue) (s : EMonCMS), s.attrValues = pre ++ rest → s.nodeID ≠ 0 →
      (List.range' pre.length rest.length).foldl registerAttribute s
        = { s with trace := s.trace ++ registrationCalls s.nodeID rest pre.length } := by
  induction rest with
  | nil =>
    intro pre s _ _
    simp [registrationCalls]
  | cons attrVal rest ih =>
    intro pre s hs hn
    rw [List.length_cons, List.range'_succ, List.foldl_cons,
      registerAttribute_at s pre rest attrVal hs hn]
    have hpre : pre.length + 1 = (pre ++ [attrVal]).length := by simp
    have h1 := ih (pre ++ [attrVal])
      { s with trace := s.trace ++ registrationCalls s.nodeID [attrVal] pre.length }
      (by show s.attrValues = _; simp [hs]) hn
    rw [hpre, h1, registrationCalls_cons s.nodeID attrVal rest pre.length, ← hpre]
    simp only [List.append_assoc]

theorem sentPackets_registrationCalls (nodeID : Nat) (values : List AttributeValue) :
    ∀ (i : Nat), sentPackets (registrationCalls nodeID values i)
      = registrationPackets nodeID values := by
  induction values with
  | nil => intro i; rfl
  | cons attrVal rest ih =>
    intro i
    rw [registrationCalls_cons, sentPackets_append, ih (i + 1)]
    simp only [registrationCalls, registrationPackets, List.filterMap_cons, List.append_nil]
    by_cases hr : attrVal.registered = true
    · simp [hr, sentPackets]
    · cases hread : attrVal.reader attrVal.attr with
      | none => simp [hr, hread, sentPackets]
      | some item => simp [hr, hread, sentPackets]

theorem attributePacket_items (nodeID : Nat) (attr : AttributeIdentifier) (item : DataItem)
    (arr : List DataItem) (harr : arr.length = 5) :
    (attributePacket nodeID attr item).length = 17 + getTypeSize item.type ∧
    headerOf (attributePacket nodeID attr item) = ⟨13 + getTypeSize item.type, SUCCESS, 5⟩ ∧
    (decodeItems (headerOf (attributePacket nodeID attr item))
        ((attributePacket nodeID attr item).drop 4) arr).map itemContent
      = [itemContent ⟨USHORT, u16Bytes nodeID⟩, itemContent ⟨USHORT, u16Bytes attr.groupID⟩,
          itemContent ⟨USHORT, u16Bytes attr.attributeID⟩,
          itemContent ⟨USHORT, u16Bytes attr.attributeNumber⟩, itemContent item] := by
  have hw := getTypeSize_le item.type
  have hh : headerOf (attributePacket nodeID attr item)
      = ⟨3 + itemsBytes (attrIdentAsDataItems attr ++ [item]), SUCCESS, 5⟩ :=
    headerOf_wirePacket _ _ (by rw [itemsBytes_attribute]; simp; omega)
  refine ⟨?_, ?_, ?_⟩
  · simp only [attributePacket, wirePacket_length]
    simp [itemsBytes, nodeIDItem, attrIdentAsDataItems, getTypeSize]
    omega
  · rw [hh, itemsBytes_attribute]
    simp
    omega
  · rw [hh]
    rw [show attributePacket nodeID attr item
      = wirePacket ⟨3 + itemsBytes (attrIdentAsDataItems attr ++ [item]), SUCCESS, 5⟩
          (nodeIDItem nodeID :: (attrIdentAsDataItems attr ++ [item])) from rfl]
    rw [decodeItems_wirePacket _ _ arr rfl (by simp [harr, attrIdentAsDataItems]),
      itemViews_content]
    rfl

/-- Claim C13.  Registration driver with the NodeID assigned.  When the timeout
has elapsed and NodeID is not 0, `registerNode` goes through the registry in
order: a registered entry causes no call; an unregistered entry has its reader
called and, when the reader succeeds, one `ATTR_REGISTER` packet is sent; a
reader failure does not stop the pass.  The packets handed to the outbound send
are exactly, in registry order, one per entry that is not registered and whose
reader succeeds, each with status `SUCCESS`, `dataCount` 5 and the items
NodeID, groupID, attributeID, attributeNumber and the value read.
`lastRegisterRequest` receives the clock reading once, and NodeID and registry
are unchanged, whatever the sends returned. -/
theorem registerNode_assigned (s : EMonCMS) (millis0 millis1 : Nat)
    (ht : REGISTERREQUESTTIMEOUT < elapsedMillis millis0 s.lastRegisterRequest)
    (hn : s.nodeID ≠ 0) :
    s.registerNode millis0 millis1
      = { s with
          lastRegisterRequest := millis1 % 4294967296
          trace := s.trace ++ registrationCalls s.nodeID s.attrValues 0 } ∧
    sentPackets (s.registerNode millis0 millis1).trace
      = sentPackets s.trace ++ registrationPackets s.nodeID s.attrValues ∧
    ATTR_REGISTER.code = 65 ∧
    (∀ attr item arr, arr.length = 5 →
      (attributePacket s.nodeID attr item).length = 17 + getTypeSize item.type ∧
      headerOf (attributePacket s.nodeID attr item) = ⟨13 + getTypeSize item.type, SUCCESS, 5⟩ ∧
      (decodeItems (headerOf (attributePacket s.nodeID attr item))
          ((attributePacket s.nodeID attr item).drop 4) arr).map itemContent
        = [itemContent ⟨USHORT, u16Bytes s.nodeID⟩, itemContent ⟨USHORT, u16Bytes attr.groupID⟩,
            itemContent ⟨USHORT, u16Bytes attr.attributeID⟩,
            itemContent ⟨USHORT, u16Bytes attr.attributeNumber⟩, itemContent item]) := by
  have h : s.registerNode millis0 millis1
      = { s with
          lastRegisterRequest := millis1 % 4294967296
          trace := s.trace ++ registrationCalls s.nodeID s.attrValues 0 } := by
    rw [registerNode_test, if_pos ht, if_neg hn, List.range_eq_range']
    have := foldl_registerAttribute s.attrValues [] s rfl hn
    simp only [List.length_nil] at this
    rw [this]
  refine ⟨h, ?_, rfl, fun attr item arr harr => attributePacket_items s.nodeID attr item arr harr⟩
  rw [h]
  simp only [sentPackets_append, sentPackets_registrationCalls]

/-- Witness for C13: scenario B, the driver with NodeID 7 after the timeout. -/
theorem registerNode_assigned_witness :
    REGISTERREQUESTTIMEOUT < elapsedMillis 6000 (scenarioDriver 7).lastRegisterRequest ∧
    (scenarioDriver 7).nodeID ≠ 0 ∧
    sentPackets ((scenarioDriver 7).registerNode 6000 6001).trace
      = sentPackets (scenarioDriver 7).trace
        ++ registrationPackets (scenarioDriver 7).nodeID (scenarioDriver 7).attrValues ∧
    registrationPackets (scenarioDriver 7).nodeID (scenarioDriver 7).attrValues
      = [(65, [15, 0, 0, 5, 5, 7, 0, 5, 1, 0, 5, 2, 0, 5, 3, 0, 5, 42, 0], 19)] :=
  ⟨by decide, by decide,
    (registerNode_assigned (scenarioDriver 7) 6000 6001 (by decide) (by decide)).2.1,
    by decide⟩

/-- Claim C16.  `postAttribute` is best effort.  It returns 0 without calling
the outbound send when the identity is not in the registry, when the entry's
reader fails, and when NodeID is 0.  Otherwise it hands the outbound send
exactly one `ATTR_POST` packet, with status `SUCCESS`, `dataCount` 5 and the
items NodeID, groupID, attributeID, attributeNumber and the value read, and
returns what the send returned.  In every case NodeID and registry are
unchanged: only the trace of host calls grows. -/
theorem postAttribute_best_effort (s : EMonCMS) (ident : AttributeIdentifier) :
    (s.getAttribute (some ident) = none → s.postAttribute ident = (0, s)) ∧
    (∀ k attrVal, s.getAttribute (some ident) = some k → s.attrValues.get? k = some attrVal →
      attrVal.reader ident = none →
      s.postAttribute ident = (0, { s with trace := s.trace ++ [Effect.reader k ident] })) ∧
    (∀ k attrVal item, s.getAttribute (some ident) = some k →
      s.attrValues.get? k = some attrVal → attrVal.reader ident = some item → s.nodeID = 0 →
      s.postAttribute ident = (0, { s with trace := s.trace ++ [Effect.reader k ident] })) ∧
    (∀ k attrVal item, s.getAttribute (some ident) = some k →
      s.attrValues.get? k = some attrVal → attrVal.reader ident = some item → s.nodeID ≠ 0 →
      s.postAttribute ident
        = (s.networkSender ATTR_POST.code (attributePacket s.nodeID ident item)
              (17 + getTypeSize item.type),
            { s with trace := s.trace ++
              [Effect.reader k ident,
                Effect.networkSender ATTR_POST.code (attributePacket s.nodeID ident item)
                  (17 + getTypeSize item.type)] })) ∧
    (∀ item arr, arr.length = 5 →
      (attributePacket s.nodeID ident item).length = 17 + getTypeSize item.type ∧
      headerOf (attributePacket s.nodeID ident item) = ⟨13 + getTypeSize item.type, SUCCESS, 5⟩ ∧
      (decodeItems (headerOf (attributePacket s.nodeID ident item))
          ((attributePacket s.nodeID ident item).drop 4) arr).map itemContent
        = [itemContent ⟨USHORT, u16Bytes s.nodeID⟩, itemContent ⟨USHORT, u16Bytes ident.groupID⟩,
            itemContent ⟨USHORT, u16Bytes ident.attributeID⟩,
            itemContent ⟨USHORT, u16Bytes ident.attributeNumber⟩, itemContent item]) ∧
    (s.postAttribute ident).2.nodeID = s.nodeID ∧
    (s.postAttribute ident).2.attrValues = s.attrValues := by
  refine ⟨?_, ?_, ?_, ?_, fun item arr harr => attributePacket_items s.nodeID ident item arr harr,
    (postAttribute_keeps s ident).1, (postAttribute_keeps s ident).2⟩
  · intro hk
    simp [postAttribute, hk]
  · intro k attrVal hk hget hr
    simp only [postAttribute, hk, hget, Option.bind, hr]
  · intro k attrVal item hk hget hr hn
    simp only [postAttribute, hk, hget, Option.bind, hr]
    rw [attrSender_unassigned _ _ _ (by exact hn) (Or.inr (Or.inl rfl))]
  · intro k attrVal item hk hget hr hn
    simp only [postAttribute, hk, hget, Option.bind, hr]
    rw [attrSender_attribute _ ATTR_POST ident item (by exact hn) (Or.inr rfl)]
    simp

/-- Witness for C16: the scenario driver with NodeID 7 posts (1, 2, 3). -/
theorem postAttribute_best_effort_witness :
    (scenarioDriver 7).getAttribute (some ⟨1, 2, 3⟩) = some 0 ∧
    (scenarioDriver 7).postAttribute ⟨1, 2, 3⟩
      = ((scenarioDriver 7).networkSender ATTR_POST.code
            (attributePacket (scenarioDriver 7).nodeID ⟨1, 2, 3⟩ ⟨USHORT, [42, 0]⟩)
            (17 + getTypeSize USHORT),
          { scenarioDriver 7 with trace := (scenarioDriver 7).trace ++
            [Effect.reader 0 ⟨1, 2, 3⟩,
              Effect.networkSender ATTR_POST.code
                (attributePacket (scenarioDriver 7).nodeID ⟨1, 2, 3⟩ ⟨USHORT, [42, 0]⟩)
                (17 + getTypeSize USHORT)] }) :=
  ⟨by decide,
    (postAttribute_best_effort (scenarioDriver 7) ⟨1, 2, 3⟩).2.2.2.1 0
      ⟨⟨1, 2, 3⟩, scenarioReader, false⟩ ⟨USHORT, [42, 0]⟩ (by decide) rfl rfl (by decide)⟩

/-- Claim C17, at the failing input.  The scenario driver with NodeID 7 and an
outbound send that reports failure (0) handles an attribute-request, once for
the known identity (1, 2, 3) and once for the unknown identity (1, 2, 4).  In
both runs the reply is built and handed to the send, the send returns 0, and
`parseEMonCMSPacket` still returns true. -/
theorem request_send_failure_not_surfaced :
    ((scenarioDriverSendFails 7).parseEMonCMSPacket ⟨12, SUCCESS, 4⟩ 80 (requestBuffer 7 1 2 3)
        (List.replicate 4 default)).1 = true ∧
    ((scenarioDriverSendFails 7).parseEMonCMSPacket ⟨12, SUCCESS, 4⟩ 80 (requestBuffer 7 1 2 3)
        (List.replicate 4 default)).2.trace
      = [Effect.reader 0 ⟨1, 2, 3⟩,
          Effect.networkSender 112
            [15, 0, 0, 5, 5, 7, 0, 5, 7, 0, 5, 1, 0, 5, 2, 0, 5, 42, 0] 19] ∧
    (scenarioDriverSendFails 7).networkSender 112
        [15, 0, 0, 5, 5, 7, 0, 5, 7, 0, 5, 1, 0, 5, 2, 0, 5, 42, 0] 19 = 0 ∧
    ((scenarioDriverSendFails 7).parseEMonCMSPacket ⟨12, SUCCESS, 4⟩ 80 (requestBuffer 7 1 2 4)
        (List.replicate 4 default)).1 = true ∧
    ((scenarioDriverSendFails 7).parseEMonCMSPacket ⟨12, SUCCESS, 4⟩ 80 (requestBuffer 7 1 2 4)
        (List.replicate 4 default)).2.trace
      = [Effect.networkSender 112 [12, 0, 0x86, 4, 5, 7, 0, 5, 1, 0, 5, 2, 0, 5, 4, 0] 16] ∧
    (scenarioDriverSendFails 7).networkSender 112
        [12, 0, 0x86, 4, 5, 7, 0, 5, 1, 0, 5, 2, 0, 5, 4, 0] 16 = 0 := by
  decide

theorem decodeLoop_reads (buffer : List Nat) (n : Nat) :
    ∀ (index : Nat) (a o p : List DataItem), o.length = n →
      decodeLoop buffer n a.length index (a ++ o ++ p)
        = a ++ (decodeReads buffer n index).map
            (fun i => (⟨buffer.getD i 0, buffer.drop (i + 1)⟩ : DataItem)) ++ p := by
  induction n with
  | zero =>
    intro index a o p h
    have : o = [] := List.length_eq_zero.mp h
    simp [decodeLoop, decodeReads, this]
  | succ n ih =>
    intro index a o p h
    obtain ⟨x, o1, rfl⟩ : ∃ x o1, o = x :: o1 := by
      cases o with
      | nil => simp at h
      | cons x o1 => exact ⟨x, o1, rfl⟩
    have hl : o1.length = n := by simpa using h
    have hset : (a ++ x :: o1 ++ p).set a.length ⟨buffer.getD index 0, buffer.drop (index + 1)⟩
        = (a ++ [⟨buffer.getD index 0, buffer.drop (index + 1)⟩]) ++ o1 ++ p := by
      have e : a ++ x :: o1 ++ p = a ++ x :: (o1 ++ p) := by simp
      rw [e]
      clear ih h hl
      induction a with
      | nil => simp
      | cons y a iha => simp [iha]
    have hi : a.length + 1
        = (a ++ [(⟨buffer.getD index 0, buffer.drop (index + 1)⟩ : DataItem)]).length := by simp
    simp only [decodeLoop, hset, decodeReads]
    rw [hi, ih _ _ o1 p hl]
    simp

theorem decodeItems_reads (header : HeaderInfo) (buffer : List Nat) (items : List DataItem)
    (h : header.dataCount ≤ items.length) :
    (decodeItems header buffer items).take header.dataCount
      = (decodeReads buffer header.dataCount 0).map
          (fun i => (⟨buffer.getD i 0, buffer.drop (i + 1)⟩ : DataItem)) := by
  have hlen : (decodeReads buffer header.dataCount 0).length = header.dataCount := by
    generalize header.dataCount = n
    generalize 0 = index
    induction n generalizing index with
    | zero => rfl
    | succ n ih => simp [decodeReads, ih]
  unfold decodeItems
  split_ifs with hc
  · have e : items = [] ++ items.take header.dataCount ++ items.drop header.dataCount := by simp
    have := decodeLoop_reads buffer header.dataCount 0 [] (items.take header.dataCount)
      (items.drop header.dataCount) (by simp; omega)
    rw [← e] at this
    simp only [List.length_nil, List.nil_append] at this
    rw [this]
    exact List.take_left' (by simp [hlen])
  · have h0 : header.dataCount = 0 := by omega
    simp [h0, decodeReads]

theorem writeU16_getD (buffer : List Nat) (v i : Nat) (h : 2 ≤ i) :
    (writeU16 buffer 0 v).getD i 0 = buffer.getD i 0 := by
  simp only [writeU16, List.getD_eq_getElem?_getD]
  rw [List.getElem?_set_ne (by omega), List.getElem?_set_ne (by omega)]

theorem writeU16_length (buffer : List Nat) (off v : Nat) :
    (writeU16 buffer off v).length = buffer.length := by
  simp [writeU16]

/-- Claim C19, counterexample.  Scenario D: `attrBuilder` is called for
`ATTR_POST` with four `USHORT` items while the NodeID is 0, on a buffer of 19
bytes that all hold 255.  It returns 0, and bytes 0 and 1 of the buffer now
hold 12 and 0. -/
theorem attrBuilder_failure_writes_dataSize :
    attrBuilder 0 ATTR_POST (attrIdentAsDataItems ⟨1, 2, 3⟩ ++ [⟨USHORT, [42, 0]⟩])
        (List.replicate 19 255)
      = (0, 12 :: 0 :: List.replicate 17 255) ∧
    12 :: 0 :: List.replicate 17 255 ≠ List.replicate 19 255 := by
  decide

/-- Claim C19, as amended.  Whenever `attrBuilder` fails (the NodeID is 0 or
the item count is wrong for a node scoped request type, or the request type is
not buildable) it returns 0 and has stored only the `dataSize` field of the
header, which holds the byte count of the caller's items: the buffer keeps its
length and every byte from index 2 on is the same after the call as before
it. -/
theorem attrBuilder_failure_frame (nodeID : Nat) (type : RequestType) (items : List DataItem)
    (buffer : List Nat)
    (hf : (type = ATTR_REGISTER ∨ type = ATTR_POST) ∧ (items.length ≠ 4 ∨ nodeID = 0) ∨
      type = ATTR_FAILURE ∧ (items.length ≠ 3 ∨ nodeID = 0) ∨
      type = ATTR_POST_RESPONSE) :
    attrBuilder nodeID type items buffer = (0, writeU16 buffer 0 (itemsDataSize items)) ∧
    (attrBuilder nodeID type items buffer).2.length = buffer.length ∧
    ∀ i, 2 ≤ i → (attrBuilder nodeID type items buffer).2.getD i 0 = buffer.getD i 0 := by
  have h : attrBuilder nodeID type items buffer = (0, writeU16 buffer 0 (itemsDataSize items)) := by
    rcases hf with ⟨h | h, hc⟩ | ⟨h, hc⟩ | h <;> subst h
    · simp only [attrBuilder]
      rcases hc with hc | hc
      · rw [if_pos hc]
      · by_cases hl : items.length ≠ 4
        · rw [if_pos hl]
        · rw [if_neg hl, if_pos hc]
    · simp only [attrBuilder]
      rcases hc with hc | hc
      · rw [if_pos hc]
      · by_cases hl : items.length ≠ 4
        · rw [if_pos hl]
        · rw [if_neg hl, if_pos hc]
    · simp only [attrBuilder]
      rcases hc with hc | hc
      · rw [if_pos hc]
      · by_cases hl : items.length ≠ 3
        · rw [if_pos hl]
        · rw [if_neg hl, if_pos hc]
    · simp only [attrBuilder]
  refine ⟨h, ?_, ?_⟩
  · rw [h]
    exact writeU16_length _ _ _
  · intro i hi
    rw [h]
    exact writeU16_getD _ _ i hi

/-- Witness for C19 as amended: scenario D. -/
theorem attrBuilder_failure_frame_witness :
    attrBuilder 0 ATTR_POST (attrIdentAsDataItems ⟨1, 2, 3⟩ ++ [⟨USHORT, [42, 0]⟩])
        (List.replicate 19 255)
      = (0, writeU16 (List.replicate 19 255) 0
          (itemsDataSize (attrIdentAsDataItems ⟨1, 2, 3⟩ ++ [⟨USHORT, [42, 0]⟩]))) :=
  (attrBuilder_failure_frame 0 ATTR_POST (attrIdentAsDataItems ⟨1, 2, 3⟩ ++ [⟨USHORT, [42, 0]⟩])
    (List.replicate 19 255) (Or.inl ⟨Or.inr rfl, Or.inr rfl⟩)).1

/-! ## Claim C21 -/

/-- Claim C21.  The dispatcher does not depend on the status field of the
inbound header (the source only logs when it is not `SUCCESS`).  For every
driver, packet type, item bytes and item array, a run with any status in the
header gives the same result, the same driver (NodeID, registry, trace of
notifications and of packets sent) and the same decoded item array as the run
with the header's own status.  In particular, whatever the status, a
register-ack that carries an item assigns the NodeID from it, and an
attribute-register-ack whose identity resolves to entry `k` marks that entry
registered. -/
theorem parse_status_independent (s : EMonCMS) (header : HeaderInfo) (type : Nat)
    (buffer : List Nat) (items : List DataItem) (status : Nat) :
    s.parseEMonCMSPacket { header with status := status } type buffer items
      = s.parseEMonCMSPacket header type buffer items ∧
    parseEMonCMSPacketItems { header with status := status } type buffer items
      = parseEMonCMSPacketItems header type buffer items ∧
    (0 < header.dataCount → 0 < items.length →
      (s.parseEMonCMSPacket { header with status := status } 114 buffer items).2.nodeID
        = readU16 (buffer.drop 1)) ∧
    (∀ k, s.getAttribute (some (identOfItems (decodeItems header buffer items))) = some k →
      (s.parseEMonCMSPacket { header with status := status } 97 buffer items).2.attrValues
        = markRegistered s.attrValues k) := by
  have hd : decodeItems { header with status := status } buffer items
      = decodeItems header buffer items := rfl
  have hp : ∀ t, s.parseEMonCMSPacket { header with status := status } t buffer items
      = s.parseEMonCMSPacket header t buffer items := by
    intro t
    simp only [parseEMonCMSPacket, hd]
  refine ⟨hp type, ?_, ?_, ?_⟩
  · simp only [parseEMonCMSPacketItems, hd]
  · intro hc hi
    rw [hp 114]
    simp only [parseEMonCMSPacket, isEMonCMSPacket, decodeItems_head header buffer items hc hi]
    by_cases h : s.nodeRegistered <;> simp [h]
  · intro k hk
    rw [hp 97]
    by_cases h : s.attrRegistered <;> simp [parseEMonCMSPacket, isEMonCMSPacket, hk, h]

/-- Witness for C21: scenario A with a register-ack whose header carries
status `FAILURE`. -/
theorem parse_status_independent_witness :
    (scenarioDriver 0).parseEMonCMSPacket ⟨3, FAILURE, 1⟩ 114 [5, 7, 0] [default]
      = (scenarioDriver 0).parseEMonCMSPacket ⟨3, SUCCESS, 1⟩ 114 [5, 7, 0] [default] ∧
    ((scenarioDriver 0).parseEMonCMSPacket ⟨3, FAILURE, 1⟩ 114 [5, 7, 0] [default]).2.nodeID
      = 7 :=
  ⟨(parse_status_independent (scenarioDriver 0) ⟨3, SUCCESS, 1⟩ 114 [5, 7, 0] [default]
      FAILURE).1,
    (parse_status_independent (scenarioDriver 0) ⟨3, SUCCESS, 1⟩ 114 [5, 7, 0] [default]
      FAILURE).2.2.1 (by decide) (by decide)⟩

/-! ## Claim C6 -/

theorem decodeReads_getElem? (buffer : List Nat) (n : Nat) :
    ∀ (index k : Nat), k < n →
      (decodeReads buffer n index)[k]? = some (decodeEnd buffer k index) := by
  induction n with
  | zero => intro index k h; omega
  | succ n ih =>
    intro index k h
    cases k with
    | zero => simp [decodeReads, decodeEnd]
    | succ k =>
      simp only [decodeReads, decodeEnd, List.getElem?_cons_succ]
      exact ih _ k (by omega)

theorem decodeItems_getD (header : HeaderInfo) (buffer : List Nat) (items : List DataItem)
    (k : Nat) (hk : k < header.dataCount) (hi : header.dataCount ≤ items.length) :
    (decodeItems header buffer items).getD k default
      = ⟨buffer.getD (decodeEnd buffer k 0) 0, buffer.drop (decodeEnd buffer k 0 + 1)⟩ := by
  have h := decodeItems_reads header buffer items hi
  rw [List.getD_eq_getElem?_getD, ← List.getElem?_take_of_lt hk, h, List.getElem?_map,
    decodeReads_getElem? buffer header.dataCount 0 k hk]
  rfl

/-- Claim C6.  An attribute-request ('P') on a driver whose NodeID is not 0.
The identity `ident` is the three 16 bit values at the addresses of items 1, 2
and 3 of the request, and `req` are those three items; when the request
carries at least four items they are the views at the second, third and fourth
tag of the item bytes, so `ident` is read from the bytes that follow those
tags.  If `ident` is not in the registry, exactly one packet goes to the
outbound send, with type 'p': status `UNSUPPORTED_ATTRIBUTE`, `dataCount` 4,
and the items NodeID, `req`.  If `ident` is in the registry and its reader
fails, the same packet goes out with status `INVALID_VALUE`.  In both cases the
result is true and the NodeID and the registry are unchanged.  The packet
decodes to the NodeID item followed by the request's three identity items,
tags and value bytes alike, and when those items are at least 16 bits wide the
identity read from items 1 to 3 of the reply is `ident`. -/
theorem request_failure_reply (s : EMonCMS) (header : HeaderInfo) (buffer : List Nat)
    (items : List DataItem) (ident : AttributeIdentifier) (req : List DataItem)
    (hI : ident
      = ⟨readU16 ((decodeItems header buffer items).getD 1 default).item,
          readU16 ((decodeItems header buffer items).getD 2 default).item,
          readU16 ((decodeItems header buffer items).getD 3 default).item⟩)
    (hreq : req
      = [(decodeItems header buffer items).getD 1 default,
          (decodeItems header buffer items).getD 2 default,
          (decodeItems header buffer items).getD 3 default])
    (hn : s.nodeID ≠ 0) :
    (s.getAttribute (some ident) = none →
      s.parseEMonCMSPacket header 80 buffer items
        = (true, { s with trace := s.trace ++
            [Effect.networkSender 112 (failurePacket s.nodeID UNSUPPORTED_ATTRIBUTE req)
              (7 + itemsBytes req)] })) ∧
    (∀ k attrVal, s.getAttribute (some ident) = some k → s.attrValues.get? k = some attrVal →
      attrVal.reader ident = none →
      s.parseEMonCMSPacket header 80 buffer items
        = (true, { s with trace := s.trace ++
            [Effect.reader k ident,
              Effect.networkSender 112 (failurePacket s.nodeID INVALID_VALUE req)
                (7 + itemsBytes req)] })) ∧
    (∀ status arr, arr.length = 4 →
      (failurePacket s.nodeID status req).length = 7 + itemsBytes req ∧
      headerOf (failurePacket s.nodeID status req) = ⟨3 + itemsBytes req, status, 4⟩ ∧
      (decodeItems (headerOf (failurePacket s.nodeID status req))
          ((failurePacket s.nodeID status req).drop 4) arr).map itemContent
        = (nodeIDItem s.nodeID :: req).map itemContent ∧
      ((∀ d ∈ req, 2 ≤ getTypeSize d.type) →
        identOfItems (decodeItems (headerOf (failurePacket s.nodeID status req))
          ((failurePacket s.nodeID status req).drop 4) arr) = ident)) ∧
    (4 ≤ header.dataCount → header.dataCount ≤ items.length →
      ident
        = ⟨readU16 (buffer.drop (decodeEnd buffer 1 0 + 1)),
            readU16 (buffer.drop (decodeEnd buffer 2 0 + 1)),
            readU16 (buffer.drop (decodeEnd buffer 3 0 + 1))⟩ ∧
      req
        = [⟨buffer.getD (decodeEnd buffer 1 0) 0, buffer.drop (decodeEnd buffer 1 0 + 1)⟩,
            ⟨buffer.getD (decodeEnd buffer 2 0) 0, buffer.drop (decodeEnd buffer 2 0 + 1)⟩,
            ⟨buffer.getD (decodeEnd buffer 3 0) 0, buffer.drop (decodeEnd buffer 3 0 + 1)⟩]) := by
  have hI2 : identOfItems (decodeItems header buffer items) = ident := by rw [hI]; rfl
  have hreq2 : identityItems (decodeItems header buffer items) = req := by rw [hreq]; rfl
  have hlen : req.length = 3 := by rw [hreq]; rfl
  have hle := itemsBytes_le req
  refine ⟨?_, ?_, ?_, ?_⟩
  · intro hk
    unfold parseEMonCMSPacket requestAttribute
    simp only [isEMonCMSPacket, hI2, hk, requestAttributeFailure_eq s _ _ hn, hreq2]
    simp
  · intro k attrVal hk hget hr
    unfold parseEMonCMSPacket requestAttribute
    simp only [isEMonCMSPacket, hI2, hk, hget, Option.bind, hr]
    rw [requestAttributeFailure_eq _ _ _ (by exact hn), hreq2]
    simp
  · intro status arr harr
    have hh : headerOf (failurePacket s.nodeID status req) = ⟨3 + itemsBytes req, status, 4⟩ :=
      headerOf_wirePacket _ _ (by simp; omega)
    have hdec : decodeItems (headerOf (failurePacket s.nodeID status req))
        ((failurePacket s.nodeID status req).drop 4) arr
          = itemViews (nodeIDItem s.nodeID :: req) [] := by
      rw [hh]
      rw [show failurePacket s.nodeID status req
        = wirePacket ⟨3 + itemsBytes req, status, 4⟩ (nodeIDItem s.nodeID :: req) from rfl]
      exact decodeItems_wirePacket _ _ arr (by simp [hlen]) (by simp [hlen, harr])
    refine ⟨?_, hh, ?_, ?_⟩
    · simp [failurePacket, wirePacket, u16Bytes, encodeItems, itemBytes_length,
        encodeItems_length, nodeIDItem, getTypeSize]
      omega
    · rw [hdec, itemViews_content]
    · intro hw
      rw [hdec, ← hI2, ← hreq2]
      rw [← hreq2] at hw
      exact identOfItems_itemViews _ _ _ _ [] (hw _ (by simp [identityItems]))
        (hw _ (by simp [identityItems])) (hw _ (by simp [identityItems]))
  · intro hc hi
    rw [hI, hreq, decodeItems_getD header buffer items 1 (by omega) hi,
      decodeItems_getD header buffer items 2 (by omega) hi,
      decodeItems_getD header buffer items 3 (by omega) hi]
    exact ⟨rfl, rfl⟩

/-- Witness for C6.  Scenario C: the driver with NodeID 7 and the attribute
(1, 2, 3) answers a request whose item bytes carry the unknown identity
(1, 2, 4) with status 0x86.  The same driver with a reader that fails answers
a request whose item bytes carry (1, 2, 3) with status 0x87, after one reader
call. -/
theorem request_failure_reply_witness :
    (scenarioDriver 7).nodeID ≠ 0 ∧
    requestBuffer 7 1 2 4 = [5, 7, 0, 5, 1, 0, 5, 2, 0, 5, 4, 0] ∧
    identOfItems (decodeItems ⟨12, SUCCESS, 4⟩ [5, 7, 0, 5, 1, 0, 5, 2, 0, 5, 4, 0]
        (List.replicate 4 default)) = ⟨1, 2, 4⟩ ∧
    (scenarioDriver 7).getAttribute (some ⟨1, 2, 4⟩) = none ∧
    (scenarioDriver 7).parseEMonCMSPacket ⟨12, SUCCESS, 4⟩ 80 (requestBuffer 7 1 2 4)
        (List.replicate 4 default)
      = (true, { scenarioDriver 7 with trace :=
          [Effect.networkSender 112
            [12, 0, 0x86, 4, 5, 7, 0, 5, 1, 0, 5, 2, 0, 5, 4, 0] 16] }) ∧
    requestBuffer 7 1 2 3 = [5, 7, 0, 5, 1, 0, 5, 2, 0, 5, 3, 0] ∧
    identOfItems (decodeItems ⟨12, SUCCESS, 4⟩ [5, 7, 0, 5, 1, 0, 5, 2, 0, 5, 3, 0]
        (List.replicate 4 default)) = ⟨1, 2, 3⟩ ∧
    (scenarioDriverReaderFails 7).getAttribute (some ⟨1, 2, 3⟩) = some 0 ∧
    (scenarioDriverReaderFails 7).parseEMonCMSPacket ⟨12, SUCCESS, 4⟩ 80 (requestBuffer 7 1 2 3)
        (List.replicate 4 default)
      = (true, { scenarioDriverReaderFails 7 with trace :=
          [Effect.reader 0 ⟨1, 2, 3⟩,
            Effect.networkSender 112
              [12, 0, 0x87, 4, 5, 7, 0, 5, 1, 0, 5, 2, 0, 5, 3, 0] 16] }) :=
  ⟨by decide, by decide, by decide, by decide,
    (request_failure_reply (scenarioDriver 7) ⟨12, SUCCESS, 4⟩ (requestBuffer 7 1 2 4)
      (List.replicate 4 default) ⟨1, 2, 4⟩
      [⟨USHORT, [1, 0, 5, 2, 0, 5, 4, 0]⟩, ⟨USHORT, [2, 0, 5, 4, 0]⟩, ⟨USHORT, [4, 0]⟩]
      (by decide) (by decide) (by decide)).1 (by decide),
    by decide, by decide, by decide,
    (request_failure_reply (scenarioDriverReaderFails 7) ⟨12, SUCCESS, 4⟩ (requestBuffer 7 1 2 3)
      (List.replicate 4 default) ⟨1, 2, 3⟩
      [⟨USHORT, [1, 0, 5, 2, 0, 5, 3, 0]⟩, ⟨USHORT, [2, 0, 5, 3, 0]⟩, ⟨USHORT, [3, 0]⟩]
      (by decide) (by decide) (by decide)).2.1 0 ⟨⟨1, 2, 3⟩, fun _ => none, false⟩
      (by decide) rfl rfl⟩

end EMonCMS

end EMonCMSLowPowerStack
